import Mathlib

/-!
# Verification of the fungi_bot tool layer

A shallow embedding of the `fungi_bot` repository's tool layer
(`src/tools/sql_tools.py`, `stats_tools.py`, `plot_tools.py`,
`workflows.py`, `history_store.py`, `history_helpers.py`) together with
proofs about the claims of its specification.

Modelling conventions:
* Python dict-shaped "ADK envelopes" become the polymorphic structure
  `Env α` with fields `status`, `data : Option α`, `error_message`.
* Tabular cell values become the inductive `Value` (numbers as exact
  rationals, strings, nulls); `pandas.to_numeric(errors="coerce")` becomes
  `Value.toNum`, a partial coercion to `Rat` (integer-literal strings
  coerce, anything else fails, mirroring the repository's data which holds
  numbers, numeric strings and junk strings).
* The DuckDB engine, the matplotlib renderer, the wall clock and the HPC
  user name are external to the repository; they are modelled as explicit
  environment records (`SqlEnv`, `PlotEnv`, `HistEnv`, ...) whose fields
  say what the external call would return or raise, and every operation is
  a total Lean function of its arguments and its environment.
* Floating-point square roots appear only inside the reported standard
  deviation and correlation; both are represented by exact order-faithful
  surrogates (`std_sq` is the square of the std, `correlation` is the
  sign-preserving square `corr * |corr|` of the true correlation), so
  that "std = 1.0" is `std_sq = 1` and "|corr| = 1.0" is `|correlation| = 1`.
* Connection lifecycles are made observable: each database-touching
  operation also returns the list of connection events (`opened`,
  `closed`) it performed, in order.
-/

namespace FungiBot

/-! ## Cell values and numeric coercion -/

/-- A value held in a tabular cell: an exact number, a string, or NULL/NaN. -/
inductive Value where
  | num (q : Rat)
  | str (s : String)
  | null
deriving DecidableEq, Repr

/-- Digit test for ASCII characters. -/
def isDigitChar (c : Char) : Bool := 48 ≤ c.toNat && c.toNat ≤ 57

/-- Value of an ASCII digit character. -/
def digitVal (c : Char) : Nat := c.toNat - 48

/-- Parse a nonempty all-digit character list as a natural number. -/
def parseNatCore : List Char → Nat → Option Nat
  | [], _ => none
  | [c], acc => if isDigitChar c then some (acc * 10 + digitVal c) else none
  | c :: rest, acc =>
      if isDigitChar c then parseNatCore rest (acc * 10 + digitVal c) else none

/-- Parse an optionally `-`-signed integer-literal string. -/
def parseIntString (s : String) : Option Int :=
  match s.data with
  | '-' :: rest => (parseNatCore rest 0).map (fun n => -(n : Int))
  | l => (parseNatCore l 0).map (fun n => (n : Int))

/-- `pandas.to_numeric(errors="coerce")` on a single cell: numbers pass
through, integer-literal strings parse, anything else becomes missing. -/
def Value.toNum : Value → Option Rat
  | .num q => some q
  | .str s => (parseIntString s).map (fun n => (n : Rat))
  | .null => none

/-! ## The ADK-style result envelope (`_success` / `_error` helpers) -/

/-- The three-field ADK-style result envelope every tool returns. -/
structure Env (α : Type) where
  status : String
  data : Option α
  error_message : Option String
deriving DecidableEq, Repr

/-- `_success` helper (sql_tools.py:12, stats_tools.py:9, plot_tools.py:14,
workflows.py:10, history_store.py:38). -/
def succEnv {α : Type} (d : α) : Env α :=
  { status := "success", data := some d, error_message := none }

/-- `_error` helper (sql_tools.py:21, stats_tools.py:18, plot_tools.py:23,
workflows.py:19, history_store.py:42). -/
def errEnv {α : Type} (m : String) : Env α :=
  { status := "error", data := none, error_message := some m }

/-- The Success side of the spec's envelope invariant: status is
`success`, data is present, error_message is absent. -/
def isSuccEnv {α : Type} (e : Env α) : Prop :=
  e.status = "success" ∧ e.data.isSome ∧ e.error_message = none

/-- The Error side of the spec's envelope invariant: status is `error`,
data is absent, error_message is a non-empty string. -/
def isErrEnv {α : Type} (e : Env α) : Prop :=
  e.status = "error" ∧ e.data = none ∧ ∃ m, e.error_message = some m ∧ m ≠ ""

/-- The spec's envelope invariant: exactly one of the Success shape and
the Error shape holds. -/
def envOk {α : Type} (e : Env α) : Prop :=
  (isSuccEnv e ∧ ¬ isErrEnv e) ∨ (isErrEnv e ∧ ¬ isSuccEnv e)

theorem envOk_succEnv {α : Type} (d : α) : envOk (succEnv d) := by
  refine .inl ⟨⟨rfl, rfl, rfl⟩, ?_⟩
  intro h
  simp [isErrEnv, succEnv] at h

theorem envOk_errEnv {α : Type} {m : String} (hm : m ≠ "") :
    envOk (@errEnv α m) := by
  refine .inr ⟨⟨rfl, rfl, m, rfl, hm⟩, ?_⟩
  intro h
  simp [isSuccEnv, errEnv] at h

/-- A string starting with a nonempty literal prefix is nonempty. -/
theorem append_ne_empty_left {p : String} (s : String) (hp : p ≠ "") :
    p ++ s ≠ "" := by
  intro h
  apply hp
  have hlen : (p ++ s).length = 0 := by rw [h]; rfl
  rw [String.length_append] at hlen
  have : p.length = 0 := by omega
  cases p with
  | mk data =>
    cases data with
    | nil => rfl
    | cons c cs => simp [String.length, List.length] at this

/-! ## Tabular rows (a pandas DataFrame built from a list of dicts) -/

/-- A row: a finite mapping from column names to cell values. -/
abbrev Row := List (String × Value)

/-- Look a column up in a row; a missing key is NaN (`null`), as in
`pd.DataFrame(rows)` where rows with missing keys get NaN cells. -/
def rowGet (r : Row) (c : String) : Value :=
  match r.find? (fun p => p.1 == c) with
  | some p => p.2
  | none => .null

/-- `df.columns` of `pd.DataFrame(rows)`: the union of the rows' key
sets, in first-appearance order. -/
def dfColumns (rows : List Row) : List String :=
  rows.foldl
    (fun acc r => acc ++ ((r.map Prod.fst).filter (fun c => ! acc.contains c))) []

/-- One coerced column: `pd.to_numeric(df[c], errors="coerce")`. -/
def colSeries (rows : List Row) (c : String) : List (Option Rat) :=
  rows.map (fun r => (rowGet r c).toNum)

/-- The non-NaN entries of a coerced column (`.dropna()`). -/
def validNums (rows : List Row) (c : String) : List Rat :=
  (colSeries rows c).filterMap id

/-! ## Statistics engine (stats_tools.py) -/

def ratSum (l : List Rat) : Rat := l.foldl (fun a b => a + b) 0

def ratMean (l : List Rat) : Rat := ratSum l / (l.length : Rat)

def listMin (l : List Rat) : Rat :=
  match l with
  | [] => 0
  | x :: xs => xs.foldl min x

def listMax (l : List Rat) : Rat :=
  match l with
  | [] => 0
  | x :: xs => xs.foldl max x

/-- Insert into a sorted list of rationals. -/
def insertSorted (q : Rat) : List Rat → List Rat
  | [] => [q]
  | x :: xs => if q ≤ x then q :: x :: xs else x :: insertSorted q xs

/-- Sort a list of rationals (insertion sort). -/
def sortRats : List Rat → List Rat
  | [] => []
  | x :: xs => insertSorted x (sortRats xs)

/-- pandas median: middle element of the sorted values, or the average of
the two middle elements for an even count. -/
def median (l : List Rat) : Rat :=
  let s := sortRats l
  let n := s.length
  if n % 2 = 1 then s.getD (n / 2) 0
  else (s.getD (n / 2 - 1) 0 + s.getD (n / 2) 0) / 2

/-- Sample variance (the `ddof=1` denominator `n - 1`). -/
def sampleVar (l : List Rat) : Rat :=
  let m := ratMean l
  ratSum (l.map (fun x => (x - m) ^ 2)) / ((l.length : Rat) - 1)

/-- One column's summary (stats_tools.py:95).  `std_sq` is the square of
the reported standard deviation `non_na.std(ddof=1)`; the std itself is
its (irrational in general) square root, so `std = 1.0` is `std_sq = 1`. -/
structure ColSummary where
  count : Nat
  mean : Rat
  std_sq : Rat
  min : Rat
  max : Rat
  median : Rat
  n_missing : Nat
deriving DecidableEq, Repr

/-- Build one column's summary from its coerced series
(stats_tools.py:88-103): statistics over the non-NaN values, `std` 0.0
unless more than one valid value, `n_missing` the NaN count. -/
def mkColSummary (series : List (Option Rat)) : ColSummary :=
  let non_na := series.filterMap id
  { count := non_na.length
    mean := ratMean non_na
    std_sq := if 1 < non_na.length then sampleVar non_na else 0
    min := listMin non_na
    max := listMax non_na
    median := median non_na
    n_missing := (series.filter (fun o => o.isNone)).length }

/-- The `data` payload of `summarize_numeric_columns`: the dict under the
`summaries` key, as an association list in column order. -/
structure SummariesData where
  summaries : List (String × ColSummary)
deriving DecidableEq, Repr

/-- `summarize_numeric_columns(rows, columns, column_names)`
(stats_tools.py:27-110).  The `columns` argument is accepted but unused,
as in the source, which validates against `df.columns`.  After
`df.apply(pd.to_numeric, errors="coerce")` every retained column has a
numeric dtype, so the `numeric_cols` filter keeps exactly the columns of
the (restricted) frame; it is empty iff that frame has no columns. -/
def summarize_numeric_columns (rows : List Row) (columns : List String)
    (column_names : Option (List String)) : Env SummariesData :=
  if rows.isEmpty then errEnv "No data rows provided for summarization."
  else
    let cols := dfColumns rows
    let selRes : Except String (List String) :=
      match column_names with
      | none => .ok cols
      | some sel =>
          let missing := sel.filter (fun c => ! cols.contains c)
          if missing.isEmpty then .ok sel
          else .error ("Requested columns " ++ String.intercalate ", " missing ++
              " not found in data. Available: " ++ String.intercalate ", " cols)
    match selRes with
    | .error m => errEnv m
    | .ok sel =>
        if sel.isEmpty then errEnv "No numeric columns available for summarization."
        else
          let summaries := sel.filterMap (fun c =>
            let series := colSeries rows c
            if (series.filterMap id).isEmpty then none
            else some (c, mkColSummary series))
          if summaries.isEmpty then
            errEnv "No numeric columns contained valid data for summarization."
          else succEnv ⟨summaries⟩

/-- The paired observations kept for correlation: rows where both columns
coerce to non-null numerics (stats_tools.py:157-165). -/
def validPairs (rows : List Row) (x y : String) : List (Rat × Rat) :=
  rows.filterMap (fun r =>
    match (rowGet r x).toNum, (rowGet r y).toNum with
    | some a, some b => some (a, b)
    | _, _ => none)

/-- Numerator of the Pearson correlation: `Σ (xᵢ - x̄)(yᵢ - ȳ)`. -/
def pearsonNum (ps : List (Rat × Rat)) : Rat :=
  let xm := ratMean (ps.map Prod.fst)
  let ym := ratMean (ps.map Prod.snd)
  ratSum (ps.map (fun p => (p.1 - xm) * (p.2 - ym)))

/-- Square of the denominator of the Pearson correlation:
`Σ (xᵢ - x̄)² · Σ (yᵢ - ȳ)²`. -/
def pearsonDen2 (ps : List (Rat × Rat)) : Rat :=
  let xm := ratMean (ps.map Prod.fst)
  let ym := ratMean (ps.map Prod.snd)
  ratSum (ps.map (fun p => (p.1 - xm) ^ 2)) *
    ratSum (ps.map (fun p => (p.2 - ym) ^ 2))

/-- Sign-preserving square `corr · |corr|` of the Pearson correlation
`pearsonNum / √pearsonDen2`: an exact, order-faithful surrogate for the
floating-point correlation; its absolute value is 1 iff |corr| = 1. -/
def corrIndex (ps : List (Rat × Rat)) : Rat :=
  pearsonNum ps * |pearsonNum ps| / pearsonDen2 ps

/-- Average rank of `v` within `l` (pandas rank with tie averaging), used
by the Spearman method. -/
def rankIn (l : List Rat) (v : Rat) : Rat :=
  ((l.countP (fun w => decide (w < v)) : Nat) : Rat) +
    (((l.countP (fun w => decide (w = v)) : Nat) : Rat) + 1) / 2

def ranks (l : List Rat) : List Rat := l.map (rankIn l)

/-- ASCII lowering of a string (Python `str.lower`). -/
def lowerStr (s : String) : String := ⟨s.data.map Char.toLower⟩

/-- A single apostrophe, used inside quoted error messages. -/
def apos : String := (Char.ofNat 39).toString

/-- The `data` payload of `compute_correlation` (stats_tools.py:173-181).
`correlation` holds the sign-preserving square `corr · |corr|` of the
floating-point correlation (see `corrIndex`). -/
structure CorrData where
  x : String
  y : String
  method : String
  correlation : Rat
  n_points : Nat
deriving DecidableEq, Repr

/-- `compute_correlation(rows, columns, x, y, method)`
(stats_tools.py:113-183).  The `columns` argument is accepted but unused,
as in the source.  Spearman is Pearson over tie-averaged ranks. -/
def compute_correlation (rows : List Row) (columns : List String)
    (x y method : String) : Env CorrData :=
  if rows.isEmpty then errEnv "No data rows provided for correlation."
  else
    let cols := dfColumns rows
    if ! cols.contains x then
      errEnv ("Requested column " ++ apos ++ x ++ apos ++
        " not found in data. Available: " ++ String.intercalate ", " cols)
    else if ! cols.contains y then
      errEnv ("Requested column " ++ apos ++ y ++ apos ++
        " not found in data. Available: " ++ String.intercalate ", " cols)
    else
      let ps := validPairs rows x y
      if ps.length < 2 then
        errEnv ("Not enough valid numeric data to compute correlation between " ++
          apos ++ x ++ apos ++ " and " ++ apos ++ y ++ apos ++ ".")
      else
        let m := lowerStr method
        if ! (m == "pearson" || m == "spearman") then
          errEnv ("Unsupported method " ++ apos ++ m ++ apos ++ ". Use " ++ apos ++
            "pearson" ++ apos ++ " or " ++ apos ++ "spearman" ++ apos ++ ".")
        else
          let ps' := if m == "spearman" then
              (ranks (ps.map Prod.fst)).zip (ranks (ps.map Prod.snd))
            else ps
          succEnv { x := x, y := y, method := m,
                    correlation := corrIndex ps', n_points := ps.length }

/-! ## Query gateway (sql_tools.py) -/

/-- `DB_PATH` of sql_tools.py (the package-relative DuckDB file path). -/
def DB_PATH : String := "database/function.duckdb"

def toLowerChars (s : String) : List Char := s.data.map Char.toLower

/-- Contiguous-sublist test on character lists (Python `in` on strings). -/
def listContains (w l : List Char) : Bool :=
  match l with
  | [] => w.isEmpty
  | _ :: t => w.isPrefixOf l || listContains w t

/-- The blocklist of sql_tools.py:59, each word wrapped in spaces. -/
def forbiddenWords : List (List Char) :=
  [" drop ".data, " delete ".data, " update ".data,
   " insert ".data, " alter ".data, " truncate ".data]

/-- The destructive-statement check of sql_tools.py:58-60: a forbidden
word, surrounded by spaces, occurs in the space-padded lowercased text. -/
def blockedSql (sql : String) : Bool :=
  let lowered := (' ' :: toLowerChars sql) ++ [' ']
  forbiddenWords.any (fun w => listContains w lowered)

/-- Connection lifecycle events observed during one operation. -/
inductive ConnEvent where
  | opened
  | closed
deriving DecidableEq, Repr

/-- The external DuckDB engine behind sql_tools.py, as an oracle:
whether the database file exists, what `duckdb.connect` does, and what
`execute(sql, params)` + bounded fetch return (column names and raw row
tuples) or raise. -/
structure SqlEnv where
  dbExists : Bool
  connectRes : Except String Unit
  execRes : String → List String → Nat → Except String (List String × List (List Value))

/-- The `data` payload of `run_duckdb_query` (sql_tools.py:74-80). -/
structure QueryData where
  columns : List String
  rows : List Row
  row_count : Nat
deriving DecidableEq, Repr

/-- `run_duckdb_query(sql, max_rows)` (sql_tools.py:30-84), paired with
the connection events it performs.  The inner `try/finally` closes the
connection on both the success and the raising path; the outer `except`
converts any raise into an error envelope. -/
def run_duckdb_query (env : SqlEnv) (sql : String) (max_rows : Nat) :
    Env QueryData × List ConnEvent :=
  if ! env.dbExists then (errEnv ("DuckDB file not found at " ++ DB_PATH), [])
  else if blockedSql sql then
    (errEnv "Destructive SQL (DROP/DELETE/UPDATE/INSERT/ALTER/TRUNCATE) is not allowed.", [])
  else
    match env.connectRes with
    | .error e => (errEnv e, [])
    | .ok _ =>
        match env.execRes sql [] max_rows with
        | .error e => (errEnv e, [.opened, .closed])
        | .ok (cols, data) =>
            let rows : List Row := data.map (fun vals => cols.zip vals)
            (succEnv { columns := cols, rows := rows, row_count := rows.length },
             [.opened, .closed])

/-- The `data` payload of `list_tables` (sql_tools.py:122). -/
structure TablesData where
  tables : List Row
deriving DecidableEq, Repr

/-- The fixed catalog query of sql_tools.py:107-112. -/
def listTablesSql : String :=
  "SELECT table_name, table_type FROM information_schema.tables WHERE table_schema = " ++
    apos ++ "main" ++ apos ++ " ORDER BY table_name"

/-- `list_tables()` (sql_tools.py:87-126). -/
def list_tables (env : SqlEnv) : Env TablesData × List ConnEvent :=
  if ! env.dbExists then (errEnv ("DuckDB file not found at " ++ DB_PATH), [])
  else
    match env.connectRes with
    | .error e => (errEnv e, [])
    | .ok _ =>
        match env.execRes listTablesSql [] 0 with
        | .error e => (errEnv e, [.opened, .closed])
        | .ok (cols, data) =>
            let rows : List Row := data.map (fun vals => cols.zip vals)
            (succEnv { tables := rows }, [.opened, .closed])

/-- The `data` payload of `describe_table` (sql_tools.py:170-175). -/
structure DescribeData where
  table_name : String
  columns : List Row
deriving DecidableEq, Repr

/-- The fixed catalog query of sql_tools.py:154-160. -/
def describeTableSql : String :=
  "SELECT column_name, data_type FROM information_schema.columns WHERE table_schema = " ++
    apos ++ "main" ++ apos ++ " AND table_name = ? ORDER BY ordinal_position"

/-- `describe_table(table_name, max_columns)` (sql_tools.py:129-179). -/
def describe_table (env : SqlEnv) (table_name : String) (max_columns : Nat) :
    Env DescribeData × List ConnEvent :=
  if ! env.dbExists then (errEnv ("DuckDB file not found at " ++ DB_PATH), [])
  else
    match env.connectRes with
    | .error e => (errEnv e, [])
    | .ok _ =>
        match env.execRes describeTableSql [table_name] max_columns with
        | .error e => (errEnv e, [.opened, .closed])
        | .ok (cols, data) =>
            let rows : List Row := data.map (fun vals => cols.zip vals)
            (succEnv { table_name := table_name, columns := rows },
             [.opened, .closed])

/-! ## Whole-word matching (the wording of the blocklist claim) -/

def isWordChar (c : Char) : Bool := c.isAlphanum || c == '_'

/-- `w` occurs at the head of `s` with a word boundary after it, and the
character before (if any) is a non-word character. -/
def wordAtHead (w : List Char) (prev : Option Char) (s : List Char) : Bool :=
  (match prev with | none => true | some p => ! isWordChar p) &&
    w.isPrefixOf s &&
    (match s.drop w.length with | [] => true | c :: _ => ! isWordChar c)

def containsWholeWordAux (w : List Char) : Option Char → List Char → Bool
  | _, [] => false
  | prev, c :: rest =>
      wordAtHead w prev (c :: rest) || containsWholeWordAux w (some c) rest

/-- `w` occurs in `s` as a whole word (delimited by non-word characters
or the ends of the text). -/
def containsWholeWord (w s : List Char) : Bool := containsWholeWordAux w none s

/-- The claim's reading, "contains, as a whole-word case-insensitive
match": a whole-word occurrence in the lowercased text. -/
def containsWholeWordCI (w sql : String) : Bool :=
  containsWholeWord (toLowerChars w) (toLowerChars sql)

/-! ## Plot request validator & dispatcher (plot_tools.py) -/

/-- `FIG_DIR` of plot_tools.py, relative to the package directory. -/
def FIG_DIR : String := "figures"

/-- The externals of one `make_plot` call: the wall-clock string
`time.strftime("%Y%m%d_%H%M%S")` taken at plot_tools.py:90, and whatever
exception (if any) the matplotlib/filesystem backend raises while
rendering and saving the figure. -/
structure PlotEnv where
  timestamp : String
  saveErr : Option String

/-- The `data` payload of `make_plot` (plot_tools.py:188-197). -/
structure PlotData where
  image_path : String
  kind : String
  x : String
  y : Option String
  hue : Option String
  n_points : Nat
deriving DecidableEq, Repr

/-- plot_tools.py:91-95: the filename parts.  Python truthiness on `y`
and `hue` means they contribute only when present and nonempty. -/
def plotFnameParts (kind x : String) (y hue : Option String) : List String :=
  [kind, x] ++
    (match y with
     | some yy => if yy = "" then [] else ["vs_" ++ yy]
     | none => []) ++
    (match hue with
     | some h => if h = "" then [] else ["by_" ++ h]
     | none => [])

/-- plot_tools.py:96: `"_".join(fname_parts) + f"_{timestamp}.png"`. -/
def plotFname (kind x : String) (y hue : Option String) (timestamp : String) : String :=
  String.intercalate "_" (plotFnameParts kind x y hue) ++ "_" ++ timestamp ++ ".png"

/-- plot_tools.py:97: `os.path.join(FIG_DIR, fname)`. -/
def plotOutPath (kind x : String) (y hue : Option String) (timestamp : String) : String :=
  FIG_DIR ++ "/" ++ plotFname kind x y hue timestamp

/-- The column-not-found message of plot_tools.py:83-86 (and the
equivalent ones in stats_tools.py). -/
def colMissingMsg (c : String) (cols : List String) : String :=
  "Requested column " ++ apos ++ c ++ apos ++ " not found in data. Available: " ++
    String.intercalate ", " cols

/-- The validation loop `for col in [x, y, hue]` of plot_tools.py:81-86:
the first requested column that is present (not None) but missing from
the frame. -/
def firstMissing (cols : List String) : List (Option String) → Option String
  | [] => none
  | none :: rest => firstMissing cols rest
  | some c :: rest =>
      if ! cols.contains c then some c else firstMissing cols rest

/-- `make_plot(rows, columns, kind, x, y, title, log_x, log_y, bins, hue)`
(plot_tools.py:32-199).  The `columns`, `title`, `log_x`, `log_y` and
`bins` arguments do not affect the envelope (they are display-only or
unused), but are kept in the signature.  Backend exceptions are modelled
at the save point (`env.saveErr`); the outer `except` converts them to an
error envelope. -/
def make_plot (env : PlotEnv) (rows : List Row) (columns : List String)
    (kind x : String) (y : Option String) (title : Option String)
    (log_x log_y : Bool) (bins : Nat) (hue : Option String) : Env PlotData :=
  if rows.isEmpty then errEnv "No data rows provided for plotting."
  else
    let cols := dfColumns rows
    match firstMissing cols [some x, y, hue] with
    | some c => errEnv (colMissingMsg c cols)
    | none =>
        let kindRes : Except String Unit :=
          if kind == "hist" then
            if (validNums rows x).isEmpty then
              .error ("No valid numeric data found in column " ++ apos ++ x ++ apos ++
                " for histogram.")
            else .ok ()
          else if kind == "scatter" then
            match y with
            | none => .error "Scatter plot requires both x and y."
            | some yy =>
                if (validPairs rows x yy).isEmpty then
                  .error ("No valid numeric data found for scatter plot with " ++
                    apos ++ x ++ apos ++ " and " ++ apos ++ yy ++ apos ++ ".")
                else .ok ()
          else if kind == "box" then
            match y with
            | none => .error "Box plot requires both x (category) and y (numeric)."
            | some yy =>
                if (validNums rows yy).isEmpty then
                  .error ("No valid numeric data found in column " ++ apos ++ yy ++
                    apos ++ " for box plot.")
                else .ok ()
          else
            .error ("Unsupported plot kind " ++ apos ++ kind ++ apos ++
              ". Supported kinds: " ++ apos ++ "hist" ++ apos ++ ", " ++ apos ++
              "scatter" ++ apos ++ ", " ++ apos ++ "box" ++ apos ++ ".")
        match kindRes with
        | .error m => errEnv m
        | .ok _ =>
            match env.saveErr with
            | some m => errEnv m
            | none =>
                succEnv { image_path := plotOutPath kind x y hue env.timestamp,
                          kind := kind, x := x, y := y, hue := hue,
                          n_points := rows.length }

/-! ## JSON-serializable scalar values and the `json.dumps`/`json.loads`
encoding used by the history store.

The repository serializes `params`/`result_stats` (flat dicts of JSON
scalars) and `figure_paths`/`tags` (lists of strings) with Python's
`json` library.  The encoding is modelled character-for-character for
these shapes; floating-point leaves are exact terminating decimals
(`Scalar.srat` with a decimal-representable rational), which is precisely
the set of numbers a Python float round-trips through `json`. -/

inductive Scalar where
  | snull
  | sbool (b : Bool)
  | sint (n : Int)
  | srat (q : Rat)
  | sstr (s : String)
deriving DecidableEq, Repr

def quoteChar : Char := Char.ofNat 34
def backslashChar : Char := Char.ofNat 92
def lbraceChar : Char := Char.ofNat 123
def rbraceChar : Char := Char.ofNat 125

/-- JSON string-body escaping (quote and backslash). -/
def escChar (c : Char) : List Char :=
  if c = quoteChar ∨ c = backslashChar then [backslashChar, c] else [c]

def encStrBody (s : List Char) : List Char := s.flatMap escChar

def encString (s : String) : List Char :=
  quoteChar :: encStrBody s.data ++ [quoteChar]

/-- Decimal digits of a natural number, most significant first. -/
def natToDigits (n : Nat) : List Char :=
  if _h : n < 10 then [Char.ofNat (48 + n)]
  else natToDigits (n / 10) ++ [Char.ofNat (48 + n % 10)]
decreasing_by exact Nat.div_lt_self (by omega) (by omega)

def encInt (i : Int) : List Char :=
  if i < 0 then '-' :: natToDigits i.natAbs else natToDigits i.natAbs

/-- Divide out all factors `p` from `n`: the exponent and the remaining
cofactor. -/
def stripFac (p : Nat) : Nat → Nat × Nat
  | n =>
      if h : 2 ≤ p ∧ 0 < n ∧ n % p = 0 then
        let r := stripFac p (n / p)
        (r.1 + 1, r.2)
      else (0, n)
decreasing_by exact Nat.div_lt_self h.2.1 (by omega)

/-- The denominator's decimal scale: the least `k` with `q·10^k` integral,
when the denominator has only the prime factors 2 and 5. -/
def decScale (q : Rat) : Nat :=
  max (stripFac 2 q.den).1 (stripFac 5 (stripFac 2 q.den).2).1

/-- `q` is a terminating decimal (exactly the rationals a Python float
can hold and `json` can print back). -/
def isFiniteDec (q : Rat) : Bool :=
  (stripFac 5 (stripFac 2 q.den).2).2 == 1

def padLeftZeros (k : Nat) (ds : List Char) : List Char :=
  List.replicate (k - ds.length) '0' ++ ds

/-- Python `repr` of a float as printed by `json.dumps`: sign, integer
part, a dot, and at least one fractional digit. -/
def encRat (q : Rat) : List Char :=
  let k := max (decScale q) 1
  let n := q.num.natAbs * 10 ^ k / q.den
  (if q.num < 0 then ['-'] else []) ++
    natToDigits (n / 10 ^ k) ++ '.' :: padLeftZeros k (natToDigits (n % 10 ^ k))

def encScalar : Scalar → List Char
  | .snull => "null".data
  | .sbool true => "true".data
  | .sbool false => "false".data
  | .sint n => encInt n
  | .srat q => encRat q
  | .sstr s => encString s

def joinComma : List (List Char) → List Char
  | [] => []
  | [x] => x
  | x :: y :: rest => x ++ ',' :: joinComma (y :: rest)

/-- `json.dumps` of a list of strings (compact separators). -/
def encStrList (l : List String) : List Char :=
  '[' :: joinComma (l.map encString) ++ [']']

/-- `json.dumps` of a flat string-keyed object (compact separators). -/
def encScalarObj (l : List (String × Scalar)) : List Char :=
  lbraceChar :: joinComma (l.map (fun p => encString p.1 ++ ':' :: encScalar p.2)) ++
    [rbraceChar]

def jsonOfStrList (l : List String) : String := ⟨encStrList l⟩

def jsonOfObj (l : List (String × Scalar)) : String := ⟨encScalarObj l⟩

/-- Parse a JSON string body up to the closing quote, undoing the
escaping. -/
def parseStrBody : List Char → Option (List Char × List Char)
  | [] => none
  | c :: rest =>
      if c = quoteChar then some ([], rest)
      else if c = backslashChar then
        match rest with
        | [] => none
        | e :: rest2 => (parseStrBody rest2).map (fun p => (e :: p.1, p.2))
      else (parseStrBody rest).map (fun p => (c :: p.1, p.2))

def parseString : List Char → Option (String × List Char)
  | c :: rest =>
      if c = quoteChar then (parseStrBody rest).map (fun p => (⟨p.1⟩, p.2))
      else none
  | [] => none

/-- Consume a maximal digit run: value, number of digits, rest. -/
def scanDigits : List Char → Nat → Nat × Nat × List Char
  | c :: rest, acc =>
      if isDigitChar c then
        let r := scanDigits rest (acc * 10 + digitVal c)
        (r.1, r.2.1 + 1, r.2.2)
      else (acc, 0, c :: rest)
  | [], acc => (acc, 0, [])

/-- Parse a JSON number: integer, or decimal with a fractional part. -/
def parseNumber (s : List Char) : Option (Scalar × List Char) :=
  let sgn : Bool × List Char :=
    match s with
    | c :: t => if c = '-' then (true, t) else (false, s)
    | [] => (false, s)
  match sgn.2 with
  | c :: _ =>
      if isDigitChar c then
        let w := scanDigits sgn.2 0
        let intRes : Scalar × List Char :=
          (.sint (if sgn.1 then -(w.1 : Int) else (w.1 : Int)), w.2.2)
        match w.2.2 with
        | c2 :: s3 =>
            if c2 = '.' then
              match s3 with
              | d :: _ =>
                  if isDigitChar d then
                    let f := scanDigits s3 0
                    some (.srat ((if sgn.1 then -1 else 1) *
                        ((w.1 : Rat) + (f.1 : Rat) / ((10 : Rat) ^ f.2.1))), f.2.2)
                  else none
              | [] => none
            else some intRes
        | [] => some intRes
      else none
  | [] => none

def parseScalar (s : List Char) : Option (Scalar × List Char) :=
  if "null".data.isPrefixOf s then some (.snull, s.drop 4)
  else if "true".data.isPrefixOf s then some (.sbool true, s.drop 4)
  else if "false".data.isPrefixOf s then some (.sbool false, s.drop 5)
  else
    match s with
    | c :: _ =>
        if c = quoteChar then (parseString s).map (fun p => (.sstr p.1, p.2))
        else parseNumber s
    | [] => none

def parseStrListItems : Nat → List Char → Option (List String × List Char)
  | 0, _ => none
  | fuel + 1, s =>
      match parseString s with
      | none => none
      | some (v, rest) =>
          match rest with
          | c :: rest2 =>
              if c = ',' then
                (parseStrListItems fuel rest2).map (fun p => (v :: p.1, p.2))
              else if c = ']' then some ([v], rest2)
              else none
          | [] => none

def parseObjItems : Nat → List Char → Option (List (String × Scalar) × List Char)
  | 0, _ => none
  | fuel + 1, s =>
      match parseString s with
      | none => none
      | some (k, rest) =>
          match rest with
          | c :: rest2 =>
              if c = ':' then
                match parseScalar rest2 with
                | none => none
                | some (v, rest3) =>
                    match rest3 with
                    | c2 :: rest4 =>
                        if c2 = ',' then
                          (parseObjItems fuel rest4).map (fun p => ((k, v) :: p.1, p.2))
                        else if c2 = rbraceChar then some ([(k, v)], rest4)
                        else none
                    | [] => none
              else none
          | [] => none

/-- `json.loads` of a list of strings: the whole input must parse. -/
def loadsStrList (s : String) : Option (List String) :=
  match s.data with
  | c :: rest =>
      if c = '[' then
        match rest with
        | d :: rest2 =>
            if d = ']' then (if rest2.isEmpty then some [] else none)
            else
              match parseStrListItems (rest.length + 1) rest with
              | some (l, []) => some l
              | _ => none
        | [] => none
      else none
  | [] => none

/-- `json.loads` of a flat string-keyed object: the whole input must
parse. -/
def loadsScalarObj (s : String) : Option (List (String × Scalar)) :=
  match s.data with
  | c :: rest =>
      if c = lbraceChar then
        match rest with
        | d :: rest2 =>
            if d = rbraceChar then (if rest2.isEmpty then some [] else none)
            else
              match parseObjItems (rest.length + 1) rest with
              | some (l, []) => some l
              | _ => none
        | [] => none
      else none
  | [] => none

/-! ## History store (history_store.py) -/

/-- One persisted row of the `analysis_history` table
(history_store.py:20-33).  Text columns are nullable. -/
structure HRow where
  analysis_id : Int
  app_name : Option String
  user_id : Option String
  workflow_name : Option String
  created_at : Option String
  summary_text : Option String
  params_json : Option String
  result_stats_json : Option String
  figure_paths_json : Option String
  tags_json : Option String
deriving DecidableEq, Repr

/-- The record dict passed to `save_analysis_record`.  An `Option` field
set to `none` models the key being absent from the dict (so Python's
`record.get(key, default)` falls back to the default). -/
structure RecordIn where
  rtype : Option String
  app_name : Option String
  user_id : Option String
  workflow_name : Option String
  created_at : Option String
  summary_text : Option String
  params : Option (List (String × Scalar))
  result_stats : Option (List (String × Scalar))
  figure_paths : Option (List String)
  tags : Option (List String)
deriving DecidableEq, Repr

/-- The externals of one history-store call: what `_ensure_db`'s
`mkdir`/`connect` does (a raise here happens before any connection
exists), whether the `CREATE TABLE IF NOT EXISTS` raises (after the
connection opened), and whether the operation's own statement raises. -/
structure HistEnv where
  connectRes : Except String Unit
  createErr : Option String
  execErr : Option String

/-- `SELECT COALESCE(MAX(analysis_id), 0)` over the table. -/
def dbMaxId (st : List HRow) : Option Int :=
  match st.map (fun r => r.analysis_id) with
  | [] => none
  | i :: is => some (is.foldl max i)

/-- history_store.py:72-76: the manually computed next identifier. -/
def nextAnalysisId (st : List HRow) : Int := (dbMaxId st).getD 0 + 1

/-- The `data` payload of `save_analysis_record` (history_store.py:109). -/
structure SaveData where
  analysis_id : Int
deriving DecidableEq, Repr

/-- `save_analysis_record(record)` (history_store.py:46-112), returning
the envelope, the table contents after the call, and the connection
events.  Note the source has no `try/finally` around the connection: a
raise after `_ensure_db` returns leaves the connection open. -/
def save_analysis_record (env : HistEnv) (st : List HRow) (record : RecordIn) :
    Env SaveData × List HRow × List ConnEvent :=
  match env.connectRes with
  | .error e => (errEnv ("Failed to save analysis record: " ++ e), st, [])
  | .ok _ =>
      match env.createErr with
      | some e => (errEnv ("Failed to save analysis record: " ++ e), st, [.opened])
      | none =>
          let params_json := jsonOfObj (record.params.getD [])
          let result_stats_json := jsonOfObj (record.result_stats.getD [])
          let figure_paths_json := jsonOfStrList (record.figure_paths.getD [])
          let tags_json := jsonOfStrList (record.tags.getD [])
          let next_id := nextAnalysisId st
          match env.execErr with
          | some e =>
              (errEnv ("Failed to save analysis record: " ++ e), st, [.opened])
          | none =>
              let row : HRow :=
                { analysis_id := next_id, app_name := record.app_name,
                  user_id := record.user_id, workflow_name := record.workflow_name,
                  created_at := record.created_at,
                  summary_text := record.summary_text,
                  params_json := some params_json,
                  result_stats_json := some result_stats_json,
                  figure_paths_json := some figure_paths_json,
                  tags_json := some tags_json }
              (succEnv { analysis_id := next_id }, st ++ [row],
               [.opened, .closed])

/-- A record as returned by `get_analysis_record` /
`list_analysis_history` (history_store.py:235-246). -/
structure RecordOut where
  analysis_id : Int
  app_name : Option String
  user_id : Option String
  workflow_name : Option String
  created_at : Option String
  summary_text : Option String
  params : List (String × Scalar)
  result_stats : List (String × Scalar)
  figure_paths : List String
  tags : List String
deriving DecidableEq, Repr

/-- Python truthiness of a nullable text column: NULL and the empty
string are falsy. -/
def truthyOpt (o : Option String) : Option String :=
  match o with
  | none => none
  | some s => if s = "" then none else some s

/-- `json.loads(col) if col else {}` for an object column; `none` means
the `json.loads` call raised. -/
def decodeObjField (o : Option String) : Option (List (String × Scalar)) :=
  match truthyOpt o with
  | none => some []
  | some s => loadsScalarObj s

/-- `json.loads(col) if col else []` for a list column; `none` means the
`json.loads` call raised. -/
def decodeListField (o : Option String) : Option (List String) :=
  match truthyOpt o with
  | none => some []
  | some s => loadsStrList s

/-- Rebuild one structured record from a stored row
(history_store.py:172-185 / 235-246); `none` when a `json.loads` raised. -/
def rowToRecord (r : HRow) : Option RecordOut :=
  match decodeObjField r.params_json, decodeObjField r.result_stats_json,
        decodeListField r.figure_paths_json, decodeListField r.tags_json with
  | some ps, some rs, some fp, some tg =>
      some { analysis_id := r.analysis_id, app_name := r.app_name,
             user_id := r.user_id, workflow_name := r.workflow_name,
             created_at := r.created_at, summary_text := r.summary_text,
             params := ps, result_stats := rs, figure_paths := fp, tags := tg }
  | _, _, _, _ => none

/-- The `data` payload of `get_analysis_record` (history_store.py:248). -/
structure GetData where
  record : RecordOut
deriving DecidableEq, Repr

/-- `get_analysis_record(analysis_id)` (history_store.py:193-251).  The
connection closes right after the fetch, before the not-found check and
the JSON parsing; an exception during the fetch leaves it open. -/
def get_analysis_record (env : HistEnv) (st : List HRow) (analysis_id : Int) :
    Env GetData × List ConnEvent :=
  match env.connectRes with
  | .error e => (errEnv ("Failed to get analysis record: " ++ e), [])
  | .ok _ =>
      match env.createErr with
      | some e => (errEnv ("Failed to get analysis record: " ++ e), [.opened])
      | none =>
          match env.execErr with
          | some e => (errEnv ("Failed to get analysis record: " ++ e), [.opened])
          | none =>
              match st.find? (fun r => r.analysis_id == analysis_id) with
              | none =>
                  (errEnv ("No analysis found with id=" ++ toString analysis_id),
                   [.opened, .closed])
              | some row =>
                  match rowToRecord row with
                  | some rec =>
                      (succEnv { record := rec }, [.opened, .closed])
                  | none =>
                      (errEnv "Failed to get analysis record: invalid JSON in stored record",
                       [.opened, .closed])

/-- The `data` payload of `list_analysis_history` (history_store.py:187). -/
structure ListData where
  records : List RecordOut
deriving DecidableEq, Repr

/-- The conjunctive equality filters of history_store.py:143-151 (Python
truthiness: `None` and `""` disable a filter). -/
def historyFilter (user_id workflow_name : Option String) (r : HRow) : Bool :=
  (match truthyOpt user_id with
   | none => true
   | some u => r.user_id == some u) &&
  (match truthyOpt workflow_name with
   | none => true
   | some w => r.workflow_name == some w)

/-- Sort key for `ORDER BY created_at DESC` (NULLs as the empty string). -/
def createdKey (r : HRow) : String := r.created_at.getD ""

def insertByCreatedDesc (r : HRow) : List HRow → List HRow
  | [] => [r]
  | x :: xs =>
      if decide (createdKey x ≤ createdKey r) then r :: x :: xs
      else x :: insertByCreatedDesc r xs

def sortByCreatedDesc : List HRow → List HRow
  | [] => []
  | x :: xs => insertByCreatedDesc x (sortByCreatedDesc xs)

/-- `list_analysis_history(user_id, workflow_name, limit)`
(history_store.py:115-190). -/
def list_analysis_history (env : HistEnv) (st : List HRow)
    (user_id workflow_name : Option String) (limit : Nat) :
    Env ListData × List ConnEvent :=
  match env.connectRes with
  | .error e => (errEnv ("Failed to list analysis history: " ++ e), [])
  | .ok _ =>
      match env.createErr with
      | some e => (errEnv ("Failed to list analysis history: " ++ e), [.opened])
      | none =>
          match env.execErr with
          | some e => (errEnv ("Failed to list analysis history: " ++ e), [.opened])
          | none =>
              let selected :=
                (sortByCreatedDesc (st.filter (historyFilter user_id workflow_name))).take limit
              match selected.mapM rowToRecord with
              | some recs => (succEnv { records := recs }, [.opened, .closed])
              | none =>
                  (errEnv "Failed to list analysis history: invalid JSON in stored record",
                   [.opened, .closed])

/-! ## Analysis records (history_helpers.py) and workflows (workflows.py) -/

/-- The externals of `AnalysisRecord.create`: `getpass.getuser()` and
`datetime.now(timezone.utc).isoformat()`. -/
structure CreateEnv where
  userName : String
  nowIso : String

/-- `AnalysisRecord.create(...).to_dict()` (history_helpers.py:32-73):
every structured field is present (defaulted to empty if the caller
passed none). -/
def analysisRecordDict (env : CreateEnv) (workflow_name : String)
    (params : List (String × Scalar)) (summary_text : String)
    (result_stats : List (String × Scalar)) (figure_paths : List String)
    (tags : List String) : RecordIn :=
  { rtype := some "fungibot_analysis", app_name := some "fungi_bot",
    user_id := some env.userName, workflow_name := some workflow_name,
    created_at := some env.nowIso, summary_text := some summary_text,
    params := some params, result_stats := some result_stats,
    figure_paths := some figure_paths, tags := some tags }

/-- The nested `plots` dict of `assembly_quality_overview`
(workflows.py:242-247). -/
structure PlotsData where
  n50_hist : Option PlotData
  n50_hist_error : Option String
  n50_vs_total_scatter : Option PlotData
  n50_vs_total_scatter_error : Option String
deriving DecidableEq, Repr

/-- The `data` payload of `assembly_quality_overview`
(workflows.py:235-251). -/
structure AsmData where
  limit : Nat
  row_count : Nat
  summaries : Option (List (String × ColSummary))
  summaries_error : Option String
  correlation : Option CorrData
  correlation_error : Option String
  plots : PlotsData
  analysis_record : Option RecordIn
  history_save_status : Option String
  history_save_error : Option String
deriving DecidableEq, Repr

/-- The externals of one `assembly_quality_overview` run. -/
structure WorkflowEnv where
  sql : SqlEnv
  histPlot : PlotEnv
  scatterPlot : PlotEnv
  hist : HistEnv
  histState : List HRow
  create : CreateEnv

/-- workflows.py:76-80. -/
def asmStatsSql (limit : Nat) : String :=
  "SELECT N50, TOTAL_LENGTH FROM asm_stats LIMIT " ++ toString limit

/-- Render a rational for the human-readable synopsis. -/
def ratToString (q : Rat) : String := toString q.num ++ "/" ++ toString q.den

def optRatScalar (o : Option Rat) : Scalar :=
  match o with
  | some q => .srat q
  | none => .snull

/-- `assembly_quality_overview(limit)` (workflows.py:29-253). -/
def assembly_quality_overview (env : WorkflowEnv) (limit : Nat) : Env AsmData :=
  let query_res := (run_duckdb_query env.sql (asmStatsSql limit) limit).1
  if ! (query_res.status == "success") then
    errEnv ("Failed to query asm_stats: " ++ (query_res.error_message.getD "None"))
  else
    let qdata := query_res.data.getD { columns := [], rows := [], row_count := 0 }
    let rows := qdata.rows
    let columns := qdata.columns
    let row_count := qdata.row_count
    let summPair : Option (List (String × ColSummary)) × Option String :=
      if ! rows.isEmpty then
        let summ_res := summarize_numeric_columns rows columns
          (some ["N50", "TOTAL_LENGTH"])
        if summ_res.status == "success" then
          (summ_res.data.map (fun d => d.summaries), none)
        else (none, summ_res.error_message)
      else (none, some "No rows returned from asm_stats for summarization.")
    let corrPair : Option CorrData × Option String :=
      if ! rows.isEmpty then
        let corr_res := compute_correlation rows columns "N50" "TOTAL_LENGTH" "pearson"
        if corr_res.status == "success" then (corr_res.data, none)
        else (none, corr_res.error_message)
      else (none, some "No rows returned from asm_stats to compute correlation.")
    let histPair : Option PlotData × Option String :=
      if ! rows.isEmpty then
        let hist_res := make_plot env.histPlot rows columns "hist" "N50" none
          (some "N50 distribution") true false 50 none
        if hist_res.status == "success" then (hist_res.data, none)
        else (none, hist_res.error_message)
      else (none, some "No rows returned from asm_stats to generate plots.")
    let scatPair : Option PlotData × Option String :=
      if ! rows.isEmpty then
        let scatter_res := make_plot env.scatterPlot rows columns "scatter" "N50"
          (some "TOTAL_LENGTH") (some "N50 vs total assembly length") true true 30 none
        if scatter_res.status == "success" then (scatter_res.data, none)
        else (none, scatter_res.error_message)
      else (none, some "No rows returned from asm_stats to generate plots.")
    let recTriple : Option RecordIn × Option String × Option String :=
      if 0 < row_count then
        let n50_stats : Option ColSummary :=
          summPair.1.bind (fun l => (l.find? (fun p => p.1 == "N50")).map Prod.snd)
        let total_stats : Option ColSummary :=
          summPair.1.bind (fun l => (l.find? (fun p => p.1 == "TOTAL_LENGTH")).map Prod.snd)
        let n_genomes : Nat := (n50_stats.map (fun s => s.count)).getD row_count
        let median_n50 : Option Rat := n50_stats.map (fun s => s.median)
        let median_total_length : Option Rat := total_stats.map (fun s => s.median)
        let corr_val : Option Rat := corrPair.1.map (fun d => d.correlation)
        let pieces : List String :=
          ["Assembly quality overview for " ++ toString n_genomes ++ " genomes."] ++
          (match median_n50 with
           | some m => ["Median N50 ≈ " ++ ratToString m ++ "."]
           | none => []) ++
          (match median_total_length with
           | some m => ["Median total assembly length ≈ " ++ ratToString m ++ "."]
           | none => []) ++
          (match corr_val with
           | some c => ["Pearson correlation between N50 and total length ≈ " ++
               ratToString c ++ "."]
           | none => [])
        let summary_text := String.intercalate " " pieces
        let figure_paths : List String :=
          (match histPair.1 with
           | some d => if d.image_path == "" then [] else [d.image_path]
           | none => []) ++
          (match scatPair.1 with
           | some d => if d.image_path == "" then [] else [d.image_path]
           | none => [])
        let result_stats : List (String × Scalar) :=
          [("n_genomes", .sint n_genomes), ("row_count", .sint row_count),
           ("median_n50", optRatScalar median_n50),
           ("median_total_length", optRatScalar median_total_length),
           ("correlation_n50_vs_total_length", optRatScalar corr_val)]
        let record := analysisRecordDict env.create "assembly_quality_overview"
          [("limit", .sint limit)] summary_text result_stats figure_paths
          ["asm_stats", "assembly_quality", "N50", "TOTAL_LENGTH"]
        let save_res := (save_analysis_record env.hist env.histState record).1
        (some record, some save_res.status, save_res.error_message)
      else (none, none, none)
    succEnv
      { limit := limit, row_count := row_count,
        summaries := summPair.1, summaries_error := summPair.2,
        correlation := corrPair.1, correlation_error := corrPair.2,
        plots := { n50_hist := histPair.1, n50_hist_error := histPair.2,
                   n50_vs_total_scatter := scatPair.1,
                   n50_vs_total_scatter_error := scatPair.2 },
        analysis_record := recTriple.1,
        history_save_status := recTriple.2.1,
        history_save_error := recTriple.2.2 }

/-! ### genome_lifestyle_overview (workflows.py:257-422) -/

/-- Per-field summary block of the guild workflow (workflows.py:347-358). -/
structure NumStats4 where
  mean : Rat
  median : Rat
  min : Rat
  max : Rat
deriving DecidableEq, Repr

/-- One guild's statistics (workflows.py:344-359). -/
structure GuildStats where
  n_genomes : Nat
  n_species : Nat
  total_length : NumStats4
  n50 : NumStats4
deriving DecidableEq, Repr

/-- The nested `params` dict (workflows.py:410-413). -/
structure LifestyleParams where
  min_species_per_guild : Nat
  max_genomes_per_guild : Nat
deriving DecidableEq, Repr

/-- The nested `plots` dict (workflows.py:417-420). -/
structure LifestylePlots where
  total_length_boxplot : Option String
  n50_boxplot : Option String
deriving DecidableEq, Repr

/-- The `data` payload of `genome_lifestyle_overview`
(workflows.py:408-422).  Guild keys are cell values. -/
structure LifestyleData where
  params : LifestyleParams
  n_rows : Nat
  n_guilds : Nat
  guild_stats : List (Value × GuildStats)
  plots : LifestylePlots
deriving DecidableEq, Repr

/-- The externals of one `genome_lifestyle_overview` run. -/
structure LifestyleEnv where
  sql : SqlEnv
  tlPlot : PlotEnv
  n50Plot : PlotEnv

/-- The join-filter-rank query of workflows.py:283-308, as one line. -/
def guildJoinSql (min_species_per_guild max_genomes_per_guild : Nat) : String :=
  "WITH joined AS (SELECT a.SPECIES, f.guild AS guild, a.TOTAL_LENGTH, a.N50 " ++
  "FROM asm_stats a JOIN funguild f ON a.SPECIES = f.SPECIES " ++
  "WHERE a.TOTAL_LENGTH IS NOT NULL AND a.N50 IS NOT NULL AND f.guild IS NOT NULL), " ++
  "annotated AS (SELECT *, COUNT(DISTINCT SPECIES) OVER (PARTITION BY guild) AS species_per_guild, " ++
  "ROW_NUMBER() OVER (PARTITION BY guild ORDER BY TOTAL_LENGTH DESC) AS rn FROM joined) " ++
  "SELECT * FROM annotated WHERE species_per_guild >= " ++
  toString min_species_per_guild ++ " AND rn <= " ++ toString max_genomes_per_guild

/-- Distinct values in first-appearance order. -/
def distinctVals (l : List Value) : List Value :=
  l.foldl (fun acc v => if acc.contains v then acc else acc ++ [v]) []

def mkNumStats4 (l : List Rat) : NumStats4 :=
  { mean := ratMean l, median := median l, min := listMin l, max := listMax l }

/-- Replace column `c`'s value in a row (in place, keeping the order). -/
def setCol (r : Row) (c : String) (v : Value) : Row :=
  r.map (fun p => if p.1 == c then (p.1, v) else p)

/-- `genome_lifestyle_overview(min_species_per_guild,
max_genomes_per_guild)` (workflows.py:257-422). -/
def genome_lifestyle_overview (env : LifestyleEnv)
    (min_species_per_guild max_genomes_per_guild : Nat) : Env LifestyleData :=
  let query_result :=
    (run_duckdb_query env.sql
      (guildJoinSql min_species_per_guild max_genomes_per_guild) 100000).1
  if query_result.status == "error" then
    errEnv ("SQL query failed in genome_lifestyle_overview: " ++
      (query_result.error_message.getD "None"))
  else
    let qdata := query_result.data.getD { columns := [], rows := [], row_count := 0 }
    let rows := qdata.rows
    if rows.isEmpty then
      errEnv "No rows returned after filtering by guild and species thresholds."
    else
      let cols := dfColumns rows
      let missing := (["guild", "TOTAL_LENGTH", "N50", "SPECIES"].filter
        (fun c => ! cols.contains c))
      if ! missing.isEmpty then
        errEnv ("Expected columns guild, TOTAL_LENGTH, N50, SPECIES in joined result, but missing " ++
          String.intercalate ", " missing ++
          ". Adjust the SQL or column names in genome_lifestyle_overview.")
      else
        let guilds := distinctVals
          ((rows.map (fun r => rowGet r "guild")).filter (fun v => ! (v == .null)))
        let stats_by_guild : List (Value × GuildStats) :=
          guilds.filterMap (fun g =>
            let gdf := rows.filter (fun r => rowGet r "guild" == g)
            let tl := validNums gdf "TOTAL_LENGTH"
            let n50 := validNums gdf "N50"
            if tl.isEmpty || n50.isEmpty then none
            else some (g,
              { n_genomes := gdf.length,
                n_species := (distinctVals (gdf.map (fun r => rowGet r "SPECIES"))).length,
                total_length := mkNumStats4 tl,
                n50 := mkNumStats4 n50 }))
        if stats_by_guild.isEmpty then
          errEnv "No guilds had valid numeric TOTAL_LENGTH and N50 values."
        else
          let plot_rows : List Row := rows.filterMap (fun r =>
            match (rowGet r "TOTAL_LENGTH").toNum, (rowGet r "N50").toNum with
            | some tl, some n5 =>
                if rowGet r "guild" == .null then none
                else some (setCol (setCol r "TOTAL_LENGTH" (.num tl)) "N50" (.num n5))
            | _, _ => none)
          let plot_cols := dfColumns plot_rows
          let tl_plot := make_plot env.tlPlot plot_rows plot_cols "box" "guild"
            (some "TOTAL_LENGTH") (some "Genome size (TOTAL_LENGTH) by guild")
            false true 30 none
          let tl_path : Option String :=
            if tl_plot.status == "error" then none
            else tl_plot.data.map (fun d => d.image_path)
          let n50_plot := make_plot env.n50Plot plot_rows plot_cols "box" "guild"
            (some "N50") (some "Assembly contiguity (N50) by guild")
            false true 30 none
          let n50_path : Option String :=
            if n50_plot.status == "error" then none
            else n50_plot.data.map (fun d => d.image_path)
          succEnv
            { params := { min_species_per_guild := min_species_per_guild,
                          max_genomes_per_guild := max_genomes_per_guild },
              n_rows := plot_rows.length,
              n_guilds := stats_by_guild.length,
              guild_stats := stats_by_guild,
              plots := { total_length_boxplot := tl_path,
                         n50_boxplot := n50_path } }

/-! ## Concrete environments and inputs used by witnesses and
counterexamples -/

/-- A concrete plot environment for witnesses. -/
def plotEnvW : PlotEnv := { timestamp := "20250101_120000", saveErr := none }

/-- The same wall-clock second, one tick later. -/
def plotEnvW2 : PlotEnv := { timestamp := "20250101_120001", saveErr := none }

/-- Concrete rows: one numeric, one non-coercible. -/
def rowsW : List Row := [[("a", Value.num 1)], [("a", Value.str "zz")]]

/-- The same cells in the opposite order (a distinct call's input). -/
def rowsW2 : List Row := [[("a", Value.str "zz")], [("a", Value.num 1)]]

/-- The successful payload of the C10 witness call. -/
def plotDataW : PlotData :=
  { image_path := plotOutPath "hist" "a" none none "20250101_120000",
    kind := "hist", x := "a", y := none, hue := none, n_points := 2 }

/-- A benign SQL backend: file present, connection fine, every statement
returns one row of one column. -/
def sqlEnvOkW : SqlEnv :=
  { dbExists := true, connectRes := .ok (),
    execRes := fun _ _ _ => .ok (["a"], [[Value.num 1]]) }

/-- A SQL backend whose execution raises an exception whose message is
the empty string (Python `str(e)` of a message-less exception). -/
def sqlEnvEmptyMsgW : SqlEnv :=
  { dbExists := true, connectRes := .ok (),
    execRes := fun _ _ _ => .error "" }

/-- A record dict with every key absent. -/
def emptyRecordIn : RecordIn :=
  { rtype := none, app_name := none, user_id := none, workflow_name := none,
    created_at := none, summary_text := none, params := none,
    result_stats := none, figure_paths := none, tags := none }

/-- A concrete stored history row with identifier 1. -/
def hrowW : HRow :=
  { analysis_id := 1, app_name := none, user_id := none, workflow_name := none,
    created_at := none, summary_text := none, params_json := none,
    result_stats_json := none, figure_paths_json := none, tags_json := none }

/-- A history backend that works. -/
def histEnvOkW : HistEnv :=
  { connectRes := .ok (), createErr := none, execErr := none }

/-- A history backend whose INSERT/SELECT raises after the connection is
open. -/
def histEnvExecFailW : HistEnv :=
  { connectRes := .ok (), createErr := none, execErr := some "disk full" }

/-- The spec's summary example: rows `[{"a":1},{"a":2},{"a":3},{"a":"x"}]`. -/
def rowsC4 : List Row :=
  [[("a", Value.num 1)], [("a", Value.num 2)], [("a", Value.num 3)],
   [("a", Value.str "x")]]

/-- Rows with a single valid numeric value in column `a`. -/
def rowsOneValid : List Row := [[("a", Value.num 5)], [("a", Value.str "x")]]

/-- Two paired observations moving in the same direction. -/
def rowsTwoIncr : List Row :=
  [[("u", Value.num 1), ("v", Value.num 10)],
   [("u", Value.num 2), ("v", Value.num 30)]]

/-- Every numeric leaf of a scalar object is a finite decimal — exactly
the values a Python float holds and `json.dumps` can print. -/
def scalarObjOk (l : List (String × Scalar)) : Prop :=
  ∀ p ∈ l, ∀ q : Rat, p.2 = Scalar.srat q → isFiniteDec q = true

/-- A concrete record with an absent `tags` key. -/
def recordW : RecordIn :=
  { rtype := some "fungibot_analysis", app_name := some "fungi_bot",
    user_id := some "nmath020",
    workflow_name := some "assembly_quality_overview",
    created_at := some "2025-01-01T00:00:00+00:00",
    summary_text := some "demo run",
    params := some [("limit", Scalar.sint 100)],
    result_stats := some [("median_n50", Scalar.srat 3), ("note", Scalar.snull)],
    figure_paths := some ["figures/hist_N50_20250101_120000.png"],
    tags := none }

/-- A workflow backend whose query succeeds but returns only
non-numeric cells, so the summarize step fails. -/
def workflowEnvW : WorkflowEnv :=
  { sql := { dbExists := true, connectRes := .ok (),
             execRes := fun _ _ _ =>
               .ok (["N50", "TOTAL_LENGTH"], [[Value.str "xx", Value.str "yy"]]) },
    histPlot := plotEnvW, scatterPlot := plotEnvW2,
    hist := histEnvOkW, histState := [],
    create := { userName := "nmath020",
                nowIso := "2025-01-01T00:00:00+00:00" } }

/-- The query payload `workflowEnvW` produces. -/
def qdW : QueryData :=
  { columns := ["N50", "TOTAL_LENGTH"],
    rows := [[("N50", Value.str "xx"), ("TOTAL_LENGTH", Value.str "yy")]],
    row_count := 1 }

/-- A connection trace is well scoped when the call either never opened a
connection or opened one and closed it before returning. -/
def wellScoped (t : List ConnEvent) : Prop :=
  t = [] ∨ t = [ConnEvent.opened, ConnEvent.closed]

/-- Every exception the SQL backend can raise renders (`str(e)`) to a
non-empty message.  Python allows `str(e) == ""`, and sql_tools.py
forwards that string verbatim as the `error_message`. -/
def SqlEnv.cleanMessages (env : SqlEnv) : Prop :=
  (∀ e, env.connectRes = Except.error e → e ≠ "") ∧
  (∀ sql ps n e, env.execRes sql ps n = Except.error e → e ≠ "")

/-- Every exception the plotting backend can raise renders to a
non-empty message (plot_tools.py forwards `str(e)` verbatim). -/
def PlotEnv.cleanMessages (env : PlotEnv) : Prop :=
  ∀ m, env.saveErr = some m → m ≠ ""

/-! ## Shared lemmas about envelopes -/

theorem errEnv_ne_succEnv {α : Type} (m : String) (d : α) : errEnv m ≠ succEnv d := by
  intro h
  simpa [errEnv, succEnv] using congrArg Env.error_message h

theorem succEnv_inj {α : Type} {d d' : α} (h : succEnv d = succEnv d') : d = d' := by
  simpa [succEnv] using congrArg Env.data h

theorem status_succEnv {α : Type} (d : α) : (succEnv d).status = "success" := rfl

theorem status_errEnv {α : Type} (m : String) : (@errEnv α m).status = "error" := rfl

/-! ## C10: `n_points` on a successful plot is the total row count -/

/-- **C10.** On every successful `make_plot` call the returned `n_points`
equals the total number of input rows (`len(rows)`), for every kind: rows
dropped by numeric coercion are still counted. -/
theorem make_plot_n_points_is_row_count (env : PlotEnv) (rows : List Row)
    (columns : List String) (kind x : String) (y : Option String)
    (title : Option String) (log_x log_y : Bool) (bins : Nat)
    (hue : Option String) (d : PlotData)
    (h : make_plot env rows columns kind x y title log_x log_y bins hue = succEnv d) :
    d.n_points = rows.length := by
  simp only [make_plot] at h
  repeat'
    first
    | exact absurd h (errEnv_ne_succEnv _ _)
    | split at h
  all_goals
    first
    | exact absurd h (errEnv_ne_succEnv _ _)
    | (obtain rfl := succEnv_inj h; rfl)

/-- Witness for C10: a histogram over two rows, one of which fails numeric
coercion (only one value is drawn), still reports `n_points = 2`. -/
theorem make_plot_n_points_is_row_count_witness :
    plotDataW.n_points = rowsW.length ∧ (validNums rowsW "a").length = 1 := by
  refine ⟨?_, by decide⟩
  exact make_plot_n_points_is_row_count plotEnvW rowsW ["a"] "hist" "a"
    none none false false 30 none plotDataW (by decide)

/-! ## C8: artifact naming -/

/-- **C8 counterexample.** Two distinct successful `make_plot` calls (their
row inputs differ) made in the same `strftime("%Y%m%d_%H%M%S")` second
with the same kind/x/y/hue derive the *same* artifact filename, so the
claim that every two distinct successful calls in a session get different
filenames is false (the second call overwrites the first output). -/
theorem make_plot_same_second_filename_collision :
    rowsW ≠ rowsW2 ∧
    (make_plot plotEnvW rowsW ["a"] "hist" "a" none none false false 30 none).status
      = "success" ∧
    (make_plot plotEnvW rowsW2 ["a"] "hist" "a" none none false false 30 none).status
      = "success" ∧
    (make_plot plotEnvW rowsW ["a"] "hist" "a" none none false false 30 none).data.map
        (fun d => d.image_path) =
      (make_plot plotEnvW rowsW2 ["a"] "hist" "a" none none false false 30 none).data.map
        (fun d => d.image_path) := by
  exact ⟨by decide, by decide, by decide, by decide⟩

/-- Strings `p ++ t ++ s` with equal-length `t` parts determine `t`. -/
theorem append_mid_inj {p1 p2 t1 t2 s : String}
    (hlen : t1.length = t2.length)
    (h : p1 ++ t1 ++ s = p2 ++ t2 ++ s) : t1 = t2 := by
  have hd : p1.data ++ (t1.data ++ s.data) = p2.data ++ (t2.data ++ s.data) := by
    have h2 := congrArg String.data h
    simpa [String.data_append, List.append_assoc] using h2
  have hlen' : (t1.data ++ s.data).length = (t2.data ++ s.data).length := by
    have e1 : t1.data.length = t1.length := rfl
    have e2 : t2.data.length = t2.length := rfl
    simp [List.length_append, e1, e2, hlen]
  have hsuffix := (List.append_inj' hd hlen').2
  have hdata : t1.data = t2.data := List.append_cancel_right hsuffix
  cases t1
  cases t2
  exact congrArg String.mk hdata

/-- **C8 (amended).** On every successful `make_plot` call the artifact
path is the concatenation of kind, x, optional y, optional hue and the
call-time timestamp; two successful calls whose call-time timestamps
differ (at the fixed `%Y%m%d_%H%M%S` width) derive different artifact
paths.  (Calls within the same strftime second need not differ: see the
counterexample.) -/
theorem make_plot_filename_scheme :
    (∀ (env : PlotEnv) (rows : List Row) (columns : List String)
       (kind x : String) (y : Option String) (title : Option String)
       (log_x log_y : Bool) (bins : Nat) (hue : Option String) (d : PlotData),
      make_plot env rows columns kind x y title log_x log_y bins hue = succEnv d →
      d.image_path =
        FIG_DIR ++ "/" ++ String.intercalate "_" (plotFnameParts kind x y hue) ++
          "_" ++ env.timestamp ++ ".png") ∧
    (∀ (env1 env2 : PlotEnv) (rows1 rows2 : List Row)
       (columns1 columns2 : List String) (kind1 kind2 x1 x2 : String)
       (y1 y2 : Option String) (title1 title2 : Option String)
       (lx1 lx2 ly1 ly2 : Bool) (bins1 bins2 : Nat) (hue1 hue2 : Option String)
       (d1 d2 : PlotData),
      make_plot env1 rows1 columns1 kind1 x1 y1 title1 lx1 ly1 bins1 hue1 = succEnv d1 →
      make_plot env2 rows2 columns2 kind2 x2 y2 title2 lx2 ly2 bins2 hue2 = succEnv d2 →
      env1.timestamp.length = env2.timestamp.length →
      env1.timestamp ≠ env2.timestamp →
      d1.image_path ≠ d2.image_path) := by
  have shape : ∀ (env : PlotEnv) (rows : List Row) (columns : List String)
      (kind x : String) (y : Option String) (title : Option String)
      (log_x log_y : Bool) (bins : Nat) (hue : Option String) (d : PlotData),
      make_plot env rows columns kind x y title log_x log_y bins hue = succEnv d →
      d.image_path =
        FIG_DIR ++ "/" ++ String.intercalate "_" (plotFnameParts kind x y hue) ++
          "_" ++ env.timestamp ++ ".png" := by
    intro env rows columns kind x y title log_x log_y bins hue d h
    simp only [make_plot] at h
    repeat'
      first
      | exact absurd h (errEnv_ne_succEnv _ _)
      | split at h
    all_goals
      first
      | exact absurd h (errEnv_ne_succEnv _ _)
      | (obtain rfl := succEnv_inj h; rfl)
  refine ⟨shape, ?_⟩
  intro env1 env2 rows1 rows2 columns1 columns2 kind1 kind2 x1 x2 y1 y2
    title1 title2 lx1 lx2 ly1 ly2 bins1 bins2 hue1 hue2 d1 d2 h1 h2 hlen hne heq
  rw [shape env1 rows1 columns1 kind1 x1 y1 title1 lx1 ly1 bins1 hue1 d1 h1,
      shape env2 rows2 columns2 kind2 x2 y2 title2 lx2 ly2 bins2 hue2 d2 h2] at heq
  exact hne (append_mid_inj hlen heq)

/-- Witness for C8 (amended): two concrete successful calls one strftime
second apart derive different artifact paths. -/
theorem make_plot_filename_scheme_witness :
    plotDataW.image_path =
      FIG_DIR ++ "/" ++ String.intercalate "_" (plotFnameParts "hist" "a" none none) ++
        "_" ++ plotEnvW.timestamp ++ ".png" ∧
    plotDataW.image_path ≠
      (plotOutPath "hist" "a" none none "20250101_120001") := by
  constructor
  · exact make_plot_filename_scheme.1 plotEnvW rowsW ["a"] "hist" "a"
      none none false false 30 none plotDataW (by decide)
  · exact make_plot_filename_scheme.2 plotEnvW plotEnvW2 rowsW rowsW ["a"] ["a"]
      "hist" "hist" "a" "a" none none none none false false false false 30 30
      none none plotDataW
      { image_path := plotOutPath "hist" "a" none none "20250101_120001",
        kind := "hist", x := "a", y := none, hue := none, n_points := 2 }
      (by decide) (by decide) (by decide) (by decide)

/-! ## C2: the destructive-statement blocklist -/

/-- **C2 counterexample.** `"SELECT * FROM t;DROP TABLE t"` contains
`DROP` as a whole-word case-insensitive match (the word is delimited by
`;` and a space), yet the blocklist does not fire — the source only
checks for the keyword *surrounded by spaces* — and with a benign backend
the call returns a success envelope, not Error. -/
theorem run_duckdb_query_wholeword_counterexample :
    containsWholeWordCI "DROP" "SELECT * FROM t;DROP TABLE t" = true ∧
    blockedSql "SELECT * FROM t;DROP TABLE t" = false ∧
    (run_duckdb_query sqlEnvOkW "SELECT * FROM t;DROP TABLE t" 1000).1.status
      = "success" := by
  exact ⟨by decide, by decide, by decide⟩

/-- **C2 (amended).** `run_duckdb_query` returns Error whenever the
space-padded lowercased statement contains a blocked word surrounded by
spaces (in particular the spec's example with `"; DROP"`), and a
statement with no such occurrence is never rejected by the blocklist:
with the file present and a working backend it succeeds. -/
theorem run_duckdb_query_blocklist :
    (∀ (env : SqlEnv) (sql : String) (max_rows : Nat),
      blockedSql sql = true →
      (run_duckdb_query env sql max_rows).1.status = "error" ∧
      (env.dbExists = true →
        (run_duckdb_query env sql max_rows).1 =
          errEnv "Destructive SQL (DROP/DELETE/UPDATE/INSERT/ALTER/TRUNCATE) is not allowed.")) ∧
    blockedSql "SELECT * FROM t; DROP TABLE t" = true ∧
    blockedSql "SELECT * FROM t" = false ∧
    (∀ (env : SqlEnv) (sql : String) (max_rows : Nat)
       (cols : List String) (data : List (List Value)),
      blockedSql sql = false → env.dbExists = true →
      env.connectRes = .ok () → env.execRes sql [] max_rows = .ok (cols, data) →
      (run_duckdb_query env sql max_rows).1.status = "success") := by
  refine ⟨?_, by decide, by decide, ?_⟩
  · intro env sql max_rows hb
    constructor
    · simp only [run_duckdb_query, hb]
      split
      · rfl
      · rfl
    · intro hdb
      simp [run_duckdb_query, hb, hdb]
  · intro env sql max_rows cols data hb hdb hc he
    simp [run_duckdb_query, hb, hdb, hc, he, succEnv]

/-- Witness for C2 (amended): the blocked branch at the spec's example
with a benign backend, and the non-blocked branch at `"SELECT * FROM t"`. -/
theorem run_duckdb_query_blocklist_witness :
    (run_duckdb_query sqlEnvOkW "SELECT * FROM t; DROP TABLE t" 1000).1 =
      errEnv "Destructive SQL (DROP/DELETE/UPDATE/INSERT/ALTER/TRUNCATE) is not allowed." ∧
    (run_duckdb_query sqlEnvOkW "SELECT * FROM t" 1000).1.status = "success" := by
  constructor
  · exact ((run_duckdb_query_blocklist.1 sqlEnvOkW "SELECT * FROM t; DROP TABLE t" 1000
      (by decide)).2 (by decide))
  · exact run_duckdb_query_blocklist.2.2.2 sqlEnvOkW "SELECT * FROM t" 1000
      ["a"] [[Value.num 1]] (by decide) (by decide) rfl rfl

/-! ## C9: connection scoping -/

/-- **C9 counterexample.** `save_analysis_record` has no `try/finally`
around its connection: when the INSERT raises (after `_ensure_db`
returned the open connection), the call returns an error envelope with
the connection still open — release is not guaranteed on exception
paths, contrary to the claim. -/
theorem save_analysis_record_leaks_on_raise :
    (save_analysis_record histEnvExecFailW [] emptyRecordIn).2.2 = [ConnEvent.opened] ∧
    ¬ wellScoped (save_analysis_record histEnvExecFailW [] emptyRecordIn).2.2 ∧
    (save_analysis_record histEnvExecFailW [] emptyRecordIn).1.status = "error" := by
  refine ⟨rfl, ?_, rfl⟩
  intro h
  rcases h with h | h
  · exact absurd (congrArg List.length h) (by decide)
  · exact absurd (congrArg List.length h) (by decide)

/-- **C9 (amended).** Every Query Gateway operation opens at most one
fresh connection per call and closes it before returning on every exit
path, including error and exception paths (`try/finally`).  Every History
Store operation opens at most one fresh connection per call and closes it
before returning on every path on which no exception is raised between
the open and the close (including the not-found and JSON-decode error
paths of `get`/`list`); an exception raised in between leaks the
connection (see the counterexample). -/
theorem connection_scoping :
    (∀ (env : SqlEnv) (sql : String) (max_rows : Nat),
      wellScoped (run_duckdb_query env sql max_rows).2) ∧
    (∀ env : SqlEnv, wellScoped (list_tables env).2) ∧
    (∀ (env : SqlEnv) (t : String) (mc : Nat),
      wellScoped (describe_table env t mc).2) ∧
    (∀ (env : HistEnv) (st : List HRow) (r : RecordIn),
      env.createErr = none → env.execErr = none →
      wellScoped (save_analysis_record env st r).2.2) ∧
    (∀ (env : HistEnv) (st : List HRow) (i : Int),
      env.createErr = none → env.execErr = none →
      wellScoped (get_analysis_record env st i).2) ∧
    (∀ (env : HistEnv) (st : List HRow) (u w : Option String) (l : Nat),
      env.createErr = none → env.execErr = none →
      wellScoped (list_analysis_history env st u w l).2) := by
  refine ⟨?_, ?_, ?_, ?_, ?_, ?_⟩
  · intro env sql max_rows
    simp only [run_duckdb_query]
    split
    · exact Or.inl rfl
    · split
      · exact Or.inl rfl
      · split
        · exact Or.inl rfl
        · split
          · exact Or.inr rfl
          · exact Or.inr rfl
  · intro env
    simp only [list_tables]
    split
    · exact Or.inl rfl
    · split
      · exact Or.inl rfl
      · split
        · exact Or.inr rfl
        · exact Or.inr rfl
  · intro env t mc
    simp only [describe_table]
    split
    · exact Or.inl rfl
    · split
      · exact Or.inl rfl
      · split
        · exact Or.inr rfl
        · exact Or.inr rfl
  · intro env st r h1 h2
    simp only [save_analysis_record, h1, h2]
    split
    · exact Or.inl rfl
    · exact Or.inr rfl
  · intro env st i h1 h2
    simp only [get_analysis_record, h1, h2]
    split
    · exact Or.inl rfl
    · split
      · exact Or.inr rfl
      · split
        · exact Or.inr rfl
        · exact Or.inr rfl
  · intro env st u w l h1 h2
    simp only [list_analysis_history, h1, h2]
    split
    · exact Or.inl rfl
    · split
      · exact Or.inr rfl
      · exact Or.inr rfl

/-- Witness for C9 (amended): concrete calls through the gateway and the
history store with a working backend produce balanced open/close traces. -/
theorem connection_scoping_witness :
    wellScoped (run_duckdb_query sqlEnvOkW "SELECT 1" 10).2 ∧
    wellScoped (save_analysis_record histEnvOkW [] emptyRecordIn).2.2 ∧
    wellScoped (get_analysis_record histEnvOkW [] 1).2 ∧
    wellScoped (list_analysis_history histEnvOkW [] none none 20).2 :=
  ⟨connection_scoping.1 sqlEnvOkW "SELECT 1" 10,
   connection_scoping.2.2.2.1 histEnvOkW [] emptyRecordIn rfl rfl,
   connection_scoping.2.2.2.2.1 histEnvOkW [] 1 rfl rfl,
   connection_scoping.2.2.2.2.2 histEnvOkW [] none none 20 rfl rfl⟩

/-! ## C5: correlation boundaries -/

/-- For two paired observations moving strictly in the same direction the
sign-preserving squared correlation is exactly 1. -/
theorem corrIndex_two_incr {a b c d : Rat} (hx : a < c) (hy : b < d) :
    corrIndex [(a, b), (c, d)] = 1 := by
  have hN : pearsonNum [(a, b), (c, d)] = (c - a) * (d - b) / 2 := by
    simp [pearsonNum, ratMean, ratSum]
    ring
  have hD : pearsonDen2 [(a, b), (c, d)] = ((c - a) * (d - b) / 2) ^ 2 := by
    simp [pearsonDen2, ratMean, ratSum]
    ring
  have hpos : 0 < (c - a) * (d - b) / 2 := by
    have h1 : 0 < c - a := by linarith
    have h2 : 0 < d - b := by linarith
    positivity
  simp only [corrIndex, hN, hD, abs_of_pos hpos]
  rw [sq]
  exact div_self (mul_pos hpos hpos).ne'

/-- A frame with no rows has no columns. -/
theorem dfColumns_nil : dfColumns [] = [] := rfl

/-- **C5.** With both columns present, `compute_correlation` returns an
Error envelope when fewer than 2 valid pairs remain and when the
lowercased method is neither `pearson` nor `spearman`; every success
carries `n_points ≥ 2`; and with exactly two valid pairs moving in the
same direction it succeeds with correlation of magnitude 1.0 (the exact
surrogate `corr·|corr|` equals 1). -/
theorem compute_correlation_boundaries :
    ∀ (rows : List Row) (columns : List String) (x y method : String),
      (dfColumns rows).contains x = true →
      (dfColumns rows).contains y = true →
      ((validPairs rows x y).length < 2 →
        (compute_correlation rows columns x y method).status = "error") ∧
      (lowerStr method ≠ "pearson" → lowerStr method ≠ "spearman" →
        (compute_correlation rows columns x y method).status = "error") ∧
      (∀ d : CorrData, compute_correlation rows columns x y method = succEnv d →
        2 ≤ d.n_points) ∧
      (∀ a b c d : Rat, validPairs rows x y = [(a, b), (c, d)] →
        a < c → b < d → lowerStr method = "pearson" →
        compute_correlation rows columns x y method =
          succEnv { x := x, y := y, method := "pearson",
                    correlation := 1, n_points := 2 }) := by
  intro rows columns x y method hx hy
  refine ⟨?_, ?_, ?_, ?_⟩
  · intro hlt
    simp only [compute_correlation, hx, hy]
    split
    · rfl
    · simp only [Bool.not_true, Bool.false_eq_true, if_false, if_pos hlt]
      rfl
  · intro hp hs
    simp only [compute_correlation, hx, hy]
    split
    · rfl
    · simp only [Bool.not_true, Bool.false_eq_true, if_false]
      split
      · rfl
      · have hm : (lowerStr method == "pearson" || lowerStr method == "spearman") = false := by
          simp [hp, hs]
        simp only [hm, Bool.not_false, if_true]
        rfl
  · intro d hd
    simp only [compute_correlation, hx, hy] at hd
    split at hd
    · exact absurd hd (errEnv_ne_succEnv _ _)
    · simp only [Bool.not_true, Bool.false_eq_true, if_false] at hd
      split at hd
      · exact absurd hd (errEnv_ne_succEnv _ _)
      · split at hd
        · exact absurd hd (errEnv_ne_succEnv _ _)
        · obtain rfl := succEnv_inj hd
          dsimp only
          omega
  · intro a b c d hps hac hbd hmeth
    have hnotlt : ¬ (validPairs rows x y).length < 2 := by
      simp [hps]
    simp only [compute_correlation, hx, hy, hmeth]
    split
    · rename_i hempty
      rw [List.isEmpty_iff] at hempty
      rw [hempty] at hps
      simp [validPairs] at hps
    · simp only [Bool.not_true, Bool.false_eq_true, if_false, if_neg hnotlt]
      have hm : (("pearson" : String) == "pearson" || ("pearson" : String) == "spearman") = true := by
        decide
      simp only [hm, Bool.not_true, Bool.false_eq_true, if_false]
      have hsp : (("pearson" : String) == "spearman") = false := by decide
      simp only [hsp, Bool.false_eq_true, if_false, hps,
        List.length_cons, List.length_nil]
      rw [corrIndex_two_incr hac hbd]

/-- Witness for C5: concrete checks of each clause — a one-row frame has
fewer than 2 pairs (Error), an unsupported method is Error, and the
two-increasing-pairs frame gives correlation surrogate exactly 1 with
`n_points = 2`. -/
theorem compute_correlation_boundaries_witness :
    (compute_correlation [[("u", Value.num 1), ("v", Value.num 2)]] ["u", "v"]
      "u" "v" "pearson").status = "error" ∧
    (compute_correlation rowsTwoIncr ["u", "v"] "u" "v" "kendall").status = "error" ∧
    compute_correlation rowsTwoIncr ["u", "v"] "u" "v" "Pearson" =
      succEnv { x := "u", y := "v", method := "pearson",
                correlation := 1, n_points := 2 } := by
  refine ⟨?_, ?_, ?_⟩
  · exact (compute_correlation_boundaries
      [[("u", Value.num 1), ("v", Value.num 2)]] ["u", "v"] "u" "v" "pearson"
      (by decide) (by decide)).1 (by decide)
  · exact (compute_correlation_boundaries rowsTwoIncr ["u", "v"] "u" "v" "kendall"
      (by decide) (by decide)).2.1 (by decide) (by decide)
  · exact (compute_correlation_boundaries rowsTwoIncr ["u", "v"] "u" "v" "Pearson"
      (by decide) (by decide)).2.2.2 1 10 2 30 (by decide) (by norm_num) (by norm_num)
      (by decide)

/-! ## C4: summary correctness -/

/-- **C4.** `summarize_numeric_columns` computes count/mean/min/max/median
over the successfully coerced values, the sample (`ddof=1`) standard
deviation with `std = 0` for a single valid value (stated via the exact
square `std_sq`), and `n_missing` = failed coercions: on the spec's rows
`[{"a":1},{"a":2},{"a":3},{"a":"x"}]` restricted to column `a` it returns
count 3, mean 2, std 1 (`std_sq = 1`), min 1, max 3, median 2,
n_missing 1; and every included column with exactly one valid value has
`std_sq = 0`. -/
theorem summarize_numeric_columns_correct :
    summarize_numeric_columns rowsC4 ["a"] (some ["a"]) =
      succEnv { summaries := [("a",
        { count := 3, mean := 2, std_sq := 1, min := 1, max := 3,
          median := 2, n_missing := 1 })] } ∧
    (∀ (rows : List Row) (columns : List String) (sel : Option (List String))
       (d : SummariesData) (c : String) (s : ColSummary),
      summarize_numeric_columns rows columns sel = succEnv d →
      (c, s) ∈ d.summaries → s.count = 1 → s.std_sq = 0) := by
  constructor
  · have hstep : summarize_numeric_columns rowsC4 ["a"] (some ["a"]) =
        succEnv ⟨[("a", mkColSummary [some 1, some 2, some 3, none])]⟩ := rfl
    have hfm : (([some 1, some 2, some 3, none] : List (Option Rat)).filterMap id)
        = [1, 2, 3] := rfl
    have hmk : mkColSummary [some 1, some 2, some 3, none] =
        { count := 3, mean := 2, std_sq := 1, min := 1, max := 3,
          median := 2, n_missing := 1 } := by
      simp only [mkColSummary, hfm, ColSummary.mk.injEq]
      norm_num [ratMean, ratSum, sampleVar, listMin, listMax, median,
        sortRats, insertSorted, min_def, max_def, List.foldl]
    rw [hstep, hmk]
  · intro rows columns sel d c s hsumm hmem hcount
    simp only [summarize_numeric_columns] at hsumm
    split at hsumm
    · exact absurd hsumm (errEnv_ne_succEnv _ _)
    · split at hsumm
      · exact absurd hsumm (errEnv_ne_succEnv _ _)
      · split at hsumm
        · exact absurd hsumm (errEnv_ne_succEnv _ _)
        · split at hsumm
          · exact absurd hsumm (errEnv_ne_succEnv _ _)
          · obtain rfl := succEnv_inj hsumm
            simp only [List.mem_filterMap] at hmem
            obtain ⟨a, _ha, hfa⟩ := hmem
            by_cases hcase : ((colSeries rows a).filterMap id).isEmpty
            · simp [hcase] at hfa
            · simp only [hcase, Bool.false_eq_true, if_false, Option.some.injEq,
                Prod.mk.injEq] at hfa
              obtain ⟨rfl, rfl⟩ := hfa
              simp only [mkColSummary] at hcount ⊢
              rw [if_neg]
              omega

/-- Witness for C4: the concrete example discharges the first clause, and
a two-row frame with a single coercible value instantiates the
single-valid-value clause, giving `std_sq = 0`. -/
theorem summarize_numeric_columns_correct_witness :
    summarize_numeric_columns rowsC4 ["a"] (some ["a"]) =
      succEnv { summaries := [("a",
        { count := 3, mean := 2, std_sq := 1, min := 1, max := 3,
          median := 2, n_missing := 1 })] } ∧
    ({ count := 1, mean := 5, std_sq := 0, min := 5, max := 5,
       median := 5, n_missing := 1 } : ColSummary).std_sq = 0 := by
  constructor
  · exact summarize_numeric_columns_correct.1
  · exact summarize_numeric_columns_correct.2 rowsOneValid ["a"] (some ["a"])
      { summaries := [("a",
        { count := 1, mean := 5, std_sq := 0, min := 5, max := 5,
          median := 5, n_missing := 1 })] }
      "a"
      { count := 1, mean := 5, std_sq := 0, min := 5, max := 5,
        median := 5, n_missing := 1 }
      (by
        have hstep : summarize_numeric_columns rowsOneValid ["a"] (some ["a"]) =
            succEnv ⟨[("a", mkColSummary [some 5, none])]⟩ := rfl
        have hfm : (([some 5, none] : List (Option Rat)).filterMap id) = [5] := rfl
        have hmk : mkColSummary [some 5, none] =
            { count := 1, mean := 5, std_sq := 0, min := 5, max := 5,
              median := 5, n_missing := 1 } := by
          simp only [mkColSummary, hfm, ColSummary.mk.injEq]
          norm_num [ratMean, ratSum, sampleVar, listMin, listMax, median,
            sortRats, insertSorted, min_def, max_def, List.foldl]
        rw [hstep, hmk])
      (by simp) rfl

/-! ## C7: identifier assignment -/

theorem foldl_max_init_le (l : List Int) (a : Int) : a ≤ l.foldl max a := by
  induction l generalizing a with
  | nil => exact le_refl a
  | cons x xs ih => exact le_trans (le_max_left a x) (ih (max a x))

theorem mem_le_foldl_max (l : List Int) (a x : Int) (hx : x ∈ l) :
    x ≤ l.foldl max a := by
  induction l generalizing a with
  | nil => cases hx
  | cons y ys ih =>
    rcases List.mem_cons.mp hx with rfl | h
    · exact le_trans (le_max_right a x) (foldl_max_init_le ys (max a x))
    · exact ih (max a y) h

/-- Every stored identifier is strictly below the next assigned one. -/
theorem mem_lt_nextAnalysisId (st : List HRow) (r : HRow) (hr : r ∈ st) :
    r.analysis_id < nextAnalysisId st := by
  have hmem : r.analysis_id ∈ st.map (fun row => row.analysis_id) :=
    List.mem_map_of_mem _ hr
  unfold nextAnalysisId dbMaxId
  cases hst : st.map (fun row => row.analysis_id) with
  | nil => rw [hst] at hmem; cases hmem
  | cons i is =>
      rw [hst] at hmem
      simp only [Option.getD_some]
      rcases List.mem_cons.mp hmem with h | h
      · have := foldl_max_init_le is i
        omega
      · have := mem_le_foldl_max is i r.analysis_id h
        omega

/-- **C7.** `save_analysis_record` assigns
`analysis_id = max(existing analysis_id, 0) + 1` within the call (for any
store whose identifiers are non-negative, as every store reachable by
saving is), so sequential saves yield strictly increasing identifiers and
the first save into an empty store gets id 1. -/
theorem save_analysis_record_id_assignment :
    (∀ st : List HRow, (∀ r ∈ st, 0 ≤ r.analysis_id) →
      nextAnalysisId st = (st.map (fun r => r.analysis_id)).foldl max 0 + 1) ∧
    (∀ (env : HistEnv) (r : RecordIn) (d : SaveData),
      (save_analysis_record env [] r).1 = succEnv d → d.analysis_id = 1) ∧
    (∀ (env1 env2 : HistEnv) (st : List HRow) (r1 r2 : RecordIn) (d1 d2 : SaveData),
      (save_analysis_record env1 st r1).1 = succEnv d1 →
      (save_analysis_record env2 (save_analysis_record env1 st r1).2.1 r2).1 = succEnv d2 →
      d1.analysis_id < d2.analysis_id) := by
  refine ⟨?_, ?_, ?_⟩
  · intro st hnn
    cases st with
    | nil => rfl
    | cons r rest =>
        simp only [nextAnalysisId, dbMaxId, List.map_cons, Option.getD_some,
          List.foldl_cons]
        have h0 : max (0 : Int) r.analysis_id = r.analysis_id :=
          max_eq_right (hnn r (List.mem_cons_self r rest))
        rw [h0]
  · intro env r d h
    rcases hc : env.connectRes with e | u
    · simp only [save_analysis_record, hc] at h
      exact absurd h (errEnv_ne_succEnv _ _)
    · rcases hcr : env.createErr with _ | e
      · rcases hex : env.execErr with _ | e
        · simp only [save_analysis_record, hc, hcr, hex] at h
          obtain rfl := succEnv_inj h
          rfl
        · simp only [save_analysis_record, hc, hcr, hex] at h
          exact absurd h (errEnv_ne_succEnv _ _)
      · simp only [save_analysis_record, hc, hcr] at h
        exact absurd h (errEnv_ne_succEnv _ _)
  · intro env1 env2 st r1 r2 d1 d2 h1 h2
    rcases hc1 : env1.connectRes with e | u
    · simp only [save_analysis_record, hc1] at h1
      exact absurd h1 (errEnv_ne_succEnv _ _)
    · rcases hcr1 : env1.createErr with _ | e
      · rcases hex1 : env1.execErr with _ | e
        · simp only [save_analysis_record, hc1, hcr1, hex1] at h1 h2
          obtain rfl := succEnv_inj h1
          rcases hc2 : env2.connectRes with e2 | u2
          · simp only [hc2] at h2
            exact absurd h2 (errEnv_ne_succEnv _ _)
          · rcases hcr2 : env2.createErr with _ | e2
            · rcases hex2 : env2.execErr with _ | e2
              · simp only [hc2, hcr2, hex2] at h2
                obtain rfl := succEnv_inj h2
                exact mem_lt_nextAnalysisId _ _ (List.mem_append_right st
                  (List.mem_singleton_self _))
              · simp only [hc2, hcr2, hex2] at h2
                exact absurd h2 (errEnv_ne_succEnv _ _)
            · simp only [hc2, hcr2] at h2
              exact absurd h2 (errEnv_ne_succEnv _ _)
        · simp only [save_analysis_record, hc1, hcr1, hex1] at h1
          exact absurd h1 (errEnv_ne_succEnv _ _)
      · simp only [save_analysis_record, hc1, hcr1] at h1
        exact absurd h1 (errEnv_ne_succEnv _ _)

/-- Witness for C7: on a concrete one-row store with id 1 the next id is
2 = max(existing, 0) + 1; the first save into the empty store returns
id 1; and a concrete pair of sequential saves is strictly increasing. -/
theorem save_analysis_record_id_assignment_witness :
    nextAnalysisId [hrowW] = 2 ∧
    (1 : Int) < 2 ∧
    ((save_analysis_record histEnvOkW [] emptyRecordIn).1.data.map
      (fun d => d.analysis_id)) = some 1 := by
  refine ⟨?_, ?_, ?_⟩
  · have h := save_analysis_record_id_assignment.1 [hrowW]
      (by intro r hr; simp at hr; rw [hr]; decide)
    rw [h]; decide
  · have h := save_analysis_record_id_assignment.2.2 histEnvOkW histEnvOkW []
      emptyRecordIn emptyRecordIn ⟨1⟩ ⟨2⟩ rfl rfl
    exact h
  · have h := save_analysis_record_id_assignment.2.1 histEnvOkW emptyRecordIn ⟨1⟩ rfl
    rw [show (save_analysis_record histEnvOkW [] emptyRecordIn).1 = succEnv ⟨1⟩ from rfl]
    simp [succEnv]

/-! ## C6: round-trip lemmas for the JSON codec -/

theorem parseStrBody_enc (s rest : List Char) :
    parseStrBody (encStrBody s ++ quoteChar :: rest) = some (s, rest) := by
  induction s with
  | nil =>
      show parseStrBody (quoteChar :: rest) = some ([], rest)
      unfold parseStrBody
      simp
  | cons c cs ih =>
      have hstep : encStrBody (c :: cs) ++ quoteChar :: rest =
          escChar c ++ (encStrBody cs ++ quoteChar :: rest) := by
        simp [encStrBody]
      rw [hstep]
      by_cases h1 : c = quoteChar ∨ c = backslashChar
      · have he : escChar c = [backslashChar, c] := by simp [escChar, h1]
        rw [he]
        have hbq : ¬ (backslashChar = quoteChar) := by decide
        show parseStrBody (backslashChar :: c :: (encStrBody cs ++ quoteChar :: rest)) = _
        unfold parseStrBody
        simp only [if_neg hbq, if_pos rfl]
        rw [ih]
        rfl
      · push_neg at h1
        have he : escChar c = [c] := by simp [escChar, h1.1, h1.2]
        rw [he]
        show parseStrBody (c :: (encStrBody cs ++ quoteChar :: rest)) = _
        unfold parseStrBody
        simp only [if_neg h1.1, if_neg h1.2]
        rw [ih]
        rfl

theorem string_mk_data (s : String) : (⟨s.data⟩ : String) = s := by
  cases s
  rfl

theorem parseString_enc (s : String) (rest : List Char) :
    parseString (encString s ++ rest) = some (s, rest) := by
  have h : encString s ++ rest = quoteChar :: (encStrBody s.data ++ quoteChar :: rest) := by
    simp [encString]
  rw [h]
  simp [parseString, parseStrBody_enc, string_mk_data]

theorem scanDigits_no_digit (s : List Char) (acc : Nat)
    (h : ∀ c, s.head? = some c → isDigitChar c = false) :
    scanDigits s acc = (acc, 0, s) := by
  cases s with
  | nil => rfl
  | cons c cs => simp [scanDigits, h c rfl]

theorem scanDigits_over_digits (ds : List Char) :
    (∀ c ∈ ds, isDigitChar c = true) →
    ∀ (rest : List Char) (acc : Nat),
      scanDigits (ds ++ rest) acc =
        ((scanDigits rest (ds.foldl (fun a c => a * 10 + digitVal c) acc)).1,
         ds.length +
           (scanDigits rest (ds.foldl (fun a c => a * 10 + digitVal c) acc)).2.1,
         (scanDigits rest (ds.foldl (fun a c => a * 10 + digitVal c) acc)).2.2) := by
  induction ds with
  | nil =>
      intro _ rest acc
      simp
  | cons d ds ih =>
      intro hds rest acc
      have hd : isDigitChar d = true := hds d (List.mem_cons_self d ds)
      have hds' : ∀ c ∈ ds, isDigitChar c = true := by
        intro c hc
        exact hds c (List.mem_cons_of_mem d hc)
      show scanDigits (d :: (ds ++ rest)) acc = _
      simp only [scanDigits, hd, if_pos]
      rw [ih hds' rest (acc * 10 + digitVal d)]
      simp only [List.foldl_cons, List.length_cons, Prod.mk.injEq]
      exact ⟨by trivial, by omega, by trivial⟩

theorem natToDigits_ne_nil (n : Nat) : natToDigits n ≠ [] := by
  rw [natToDigits]
  split
  · simp
  · simp

theorem natToDigits_all_digits (n : Nat) :
    ∀ c ∈ natToDigits n, isDigitChar c = true := by
  induction n using Nat.strong_induction_on with
  | _ n ih =>
      intro c hc
      rw [natToDigits] at hc
      split at hc
      · rename_i h
        simp only [List.mem_singleton] at hc
        subst hc
        interval_cases n <;> decide
      · rename_i h
        rcases List.mem_append.mp hc with h1 | h1
        · exact ih (n / 10) (Nat.div_lt_self (by omega) (by omega)) c h1
        · simp only [List.mem_singleton] at h1
          subst h1
          have hm : n % 10 < 10 := Nat.mod_lt n (by omega)
          interval_cases hmm : (n % 10) <;> decide

theorem digitVal_ofNat (m : Nat) (hm : m < 10) :
    digitVal (Char.ofNat (48 + m)) = m := by
  interval_cases m <;> decide

theorem foldl_digits_natToDigits (n : Nat) :
    ∀ acc : Nat,
      (natToDigits n).foldl (fun a c => a * 10 + digitVal c) acc
        = acc * 10 ^ (natToDigits n).length + n := by
  induction n using Nat.strong_induction_on with
  | _ n ih =>
      intro acc
      rw [natToDigits]
      split
      · rename_i h
        simp [digitVal_ofNat n h]
      · rename_i h
        rw [List.foldl_append, ih (n / 10) (Nat.div_lt_self (by omega) (by omega)) acc]
        have hm : n % 10 < 10 := Nat.mod_lt n (by omega)
        simp only [List.foldl_cons, List.foldl_nil, List.length_append,
          List.length_cons, List.length_nil, digitVal_ofNat (n % 10) hm]
        rw [pow_succ, ← Nat.mul_assoc]
        omega

/-- A digit run encoding `n`, followed by a non-digit boundary, scans back
to exactly `n`. -/
theorem scanDigits_natToDigits (n : Nat) (rest : List Char) (acc : Nat)
    (hrest : ∀ c, rest.head? = some c → isDigitChar c = false) :
    scanDigits (natToDigits n ++ rest) acc =
      (acc * 10 ^ (natToDigits n).length + n, (natToDigits n).length, rest) := by
  rw [scanDigits_over_digits (natToDigits n) (natToDigits_all_digits n) rest acc,
    foldl_digits_natToDigits n acc,
    scanDigits_no_digit rest _ hrest]
  simp

theorem ne_of_digit (c d : Char) (h : isDigitChar c = true)
    (hd : isDigitChar d = false) : c ≠ d := by
  intro heq
  rw [heq] at h
  rw [h] at hd
  cases hd

/-- An encoded integer followed by a boundary parses back to itself. -/
theorem parseNumber_encInt (i : Int) (rest : List Char)
    (hrest : ∀ c, rest.head? = some c → isDigitChar c = false ∧ c ≠ '.') :
    parseNumber (encInt i ++ rest) = some (.sint i, rest) := by
  have hrest1 : ∀ c, rest.head? = some c → isDigitChar c = false :=
    fun c hc => (hrest c hc).1
  obtain ⟨c, cs, hc⟩ := List.exists_cons_of_ne_nil (natToDigits_ne_nil i.natAbs)
  have hcd : isDigitChar c = true := by
    refine natToDigits_all_digits i.natAbs c ?_
    rw [hc]
    exact List.mem_cons_self c cs
  have hcm : c ≠ '-' := ne_of_digit c '-' hcd (by decide)
  have hscan : scanDigits (c :: (cs ++ rest)) 0 =
      (i.natAbs, (natToDigits i.natAbs).length, rest) := by
    have h0 : c :: (cs ++ rest) = natToDigits i.natAbs ++ rest := by
      rw [hc, List.cons_append]
    rw [h0, scanDigits_natToDigits _ rest 0 hrest1]
    simp
  by_cases hneg : i < 0
  · have henc : encInt i ++ rest = '-' :: (c :: (cs ++ rest)) := by
      simp [encInt, hneg, hc]
    rw [henc]
    have hi : |i| = -i := abs_of_nonpos (le_of_lt hneg)
    rcases hr : rest with _ | ⟨r, rs⟩
    · subst hr
      simp only [List.append_nil] at hscan ⊢
      simp [parseNumber, hcd, hscan, hi]
    · subst hr
      have hrd : r ≠ '.' := (hrest r rfl).2
      simp [parseNumber, hcd, hscan, hi, hrd]
  · have henc : encInt i ++ rest = c :: (cs ++ rest) := by
      simp [encInt, hneg, hc]
    rw [henc]
    have hi : (i.natAbs : Int) = i := by omega
    rcases hr : rest with _ | ⟨r, rs⟩
    · subst hr
      simp only [List.append_nil] at hscan ⊢
      simp [parseNumber, hcd, hcm, hscan, hi]
    · subst hr
      have hrd : r ≠ '.' := (hrest r rfl).2
      simp [parseNumber, hcd, hcm, hscan, hi, hrd]

/-- Correctness of `stripFac`: it factors out exactly the `p`-part. -/
theorem stripFac_spec (p : Nat) (hp : 2 ≤ p) : ∀ n : Nat, 0 < n →
    n = p ^ (stripFac p n).1 * (stripFac p n).2 ∧ ¬ (p ∣ (stripFac p n).2) := by
  intro n
  induction n using Nat.strong_induction_on with
  | _ n ih =>
      intro hn
      rw [stripFac]
      split
      · rename_i h
        have hpd : p ∣ n := Nat.dvd_of_mod_eq_zero h.2.2
        have hlt : n / p < n := Nat.div_lt_self hn (by omega)
        have hpos : 0 < n / p := Nat.div_pos (Nat.le_of_dvd hn hpd) (by omega)
        obtain ⟨h1, h2⟩ := ih (n / p) hlt hpos
        refine ⟨?_, h2⟩
        have hmul : p * (n / p) = n := Nat.mul_div_cancel' hpd
        calc n = p * (n / p) := hmul.symm
          _ = p * (p ^ (stripFac p (n / p)).1 * (stripFac p (n / p)).2) := by rw [← h1]
          _ = p ^ ((stripFac p (n / p)).1 + 1) * (stripFac p (n / p)).2 := by ring
      · rename_i h
        have hmod : n % p ≠ 0 := by
          intro hm
          exact h ⟨hp, hn, hm⟩
        refine ⟨by simp, ?_⟩
        intro hd
        obtain ⟨k, hk⟩ := hd
        subst hk
        exact hmod (Nat.mul_mod_right p k)

theorem foldl_replicate_zero (j : Nat) :
    ∀ acc : Nat,
      (List.replicate j '0').foldl (fun a c => a * 10 + digitVal c) acc
        = acc * 10 ^ j := by
  induction j with
  | zero => intro acc; simp
  | succ j ih =>
      intro acc
      have h0 : digitVal '0' = 0 := by decide
      rw [List.replicate_succ, List.foldl_cons, h0, ih (acc * 10 + 0)]
      ring

theorem padded_all_digits (k m : Nat) :
    ∀ c ∈ padLeftZeros k (natToDigits m), isDigitChar c = true := by
  intro c hc
  rcases List.mem_append.mp hc with h | h
  · rw [List.eq_of_mem_replicate h]
    decide
  · exact natToDigits_all_digits m c h

theorem padLeftZeros_length (k : Nat) (ds : List Char) (h : ds.length ≤ k) :
    (padLeftZeros k ds).length = k := by
  simp [padLeftZeros]
  omega

theorem foldl_padded (k m : Nat) :
    (padLeftZeros k (natToDigits m)).foldl (fun a c => a * 10 + digitVal c) 0 = m := by
  rw [padLeftZeros, List.foldl_append, foldl_replicate_zero,
    foldl_digits_natToDigits]
  simp

theorem scanDigits_padded (k m : Nat) (hm : (natToDigits m).length ≤ k)
    (rest : List Char) (hrest : ∀ c, rest.head? = some c → isDigitChar c = false) :
    scanDigits (padLeftZeros k (natToDigits m) ++ rest) 0 = (m, k, rest) := by
  rw [scanDigits_over_digits _ (padded_all_digits k m) rest 0, foldl_padded,
    scanDigits_no_digit rest _ hrest, padLeftZeros_length _ _ hm]
  simp

theorem natToDigits_length_le : ∀ k n : Nat, 1 ≤ k → n < 10 ^ k →
    (natToDigits n).length ≤ k := by
  intro k
  induction k with
  | zero => intro n h; omega
  | succ k ih =>
      intro n _ hn
      rw [natToDigits]
      split
      · simp
      · rename_i h
        have hk1 : 1 ≤ k := by
          rcases Nat.eq_zero_or_pos k with rfl | hpos
          · simp at hn
            omega
          · exact hpos
        have hdiv : n / 10 < 10 ^ k := by
          rw [Nat.div_lt_iff_lt_mul (by omega)]
          calc n < 10 ^ (k + 1) := hn
            _ = 10 ^ k * 10 := by ring
        have hlen := ih (n / 10) hk1 hdiv
        simp only [List.length_append, List.length_cons, List.length_nil]
        omega

/-- Core parse lemma for an encoded decimal `[-]W.F` with the fractional
block zero-padded to width `k`. -/
theorem parseNumber_encRat_core (sgnNeg : Bool) (W F k : Nat) (hk : 1 ≤ k)
    (hFlen : (natToDigits F).length ≤ k) (rest : List Char)
    (hrest : ∀ c, rest.head? = some c → isDigitChar c = false ∧ c ≠ '.') :
    parseNumber ((if sgnNeg then ['-'] else []) ++ (natToDigits W ++
        '.' :: (padLeftZeros k (natToDigits F) ++ rest))) =
      some (.srat ((if sgnNeg then -1 else 1) *
        ((W : Rat) + (F : Rat) / (10 : Rat) ^ k)), rest) := by
  have hrest1 : ∀ c, rest.head? = some c → isDigitChar c = false :=
    fun c hc => (hrest c hc).1
  obtain ⟨c, cs, hc⟩ := List.exists_cons_of_ne_nil (natToDigits_ne_nil W)
  have hcd : isDigitChar c = true := by
    refine natToDigits_all_digits W c ?_
    rw [hc]; exact List.mem_cons_self c cs
  have hcm : c ≠ '-' := ne_of_digit c '-' hcd (by decide)
  have hpne : padLeftZeros k (natToDigits F) ≠ [] := by
    intro h
    have := padLeftZeros_length k (natToDigits F) hFlen
    rw [h] at this
    simp at this
    omega
  obtain ⟨d, ds, hdds⟩ := List.exists_cons_of_ne_nil hpne
  have hdd : isDigitChar d = true := by
    refine padded_all_digits k F d ?_
    rw [hdds]; exact List.mem_cons_self d ds
  have hexp : padLeftZeros k (natToDigits F) ++ rest = d :: (ds ++ rest) := by
    rw [hdds, List.cons_append]
  have hscanW : scanDigits (c :: (cs ++ '.' :: d :: (ds ++ rest))) 0 =
      (W, (natToDigits W).length, '.' :: d :: (ds ++ rest)) := by
    have h0 : c :: (cs ++ '.' :: d :: (ds ++ rest))
        = natToDigits W ++ '.' :: (padLeftZeros k (natToDigits F) ++ rest) := by
      rw [hexp, hc, List.cons_append]
    rw [h0, scanDigits_natToDigits W _ 0 (by intro e he; cases he; decide)]
    rw [hexp]
    simp
  have hscanF : scanDigits (d :: (ds ++ rest)) 0 = (F, k, rest) := by
    rw [← hexp]
    exact scanDigits_padded k F hFlen rest hrest1
  cases sgnNeg with
  | true =>
      have henc : (if true then ['-'] else []) ++ (natToDigits W ++
          '.' :: (padLeftZeros k (natToDigits F) ++ rest)) =
          '-' :: (c :: (cs ++ '.' :: d :: (ds ++ rest))) := by
        rw [hexp, hc]
        simp
      rw [henc]
      simp only [parseNumber]
      simp [hcd, hdd, hscanW, hscanF]
  | false =>
      have henc : (if false then ['-'] else []) ++ (natToDigits W ++
          '.' :: (padLeftZeros k (natToDigits F) ++ rest)) =
          c :: (cs ++ '.' :: d :: (ds ++ rest)) := by
        rw [hexp, hc]
        simp
      rw [henc]
      simp only [parseNumber]
      simp [hcd, hcm, hdd, hscanW, hscanF]

/-- A finite-decimal denominator divides `10 ^ k` from its scale on. -/
theorem den_dvd_pow10 (q : Rat) (hq : isFiniteDec q = true) (k : Nat)
    (hk : decScale q ≤ k) : q.den ∣ 10 ^ k := by
  have hden : 0 < q.den := Nat.pos_of_ne_zero q.den_nz
  obtain ⟨h2a, _⟩ := stripFac_spec 2 (by omega) q.den hden
  have hr2pos : 0 < (stripFac 2 q.den).2 := by
    rcases Nat.eq_zero_or_pos (stripFac 2 q.den).2 with h | h
    · rw [h, Nat.mul_zero] at h2a
      omega
    · exact h
  obtain ⟨h5a, _⟩ := stripFac_spec 5 (by omega) (stripFac 2 q.den).2 hr2pos
  have hr5 : (stripFac 5 (stripFac 2 q.den).2).2 = 1 := by
    simpa [isFiniteDec] using hq
  rw [hr5, Nat.mul_one] at h5a
  simp only [decScale] at hk
  have hden_eq : q.den =
      2 ^ (stripFac 2 q.den).1 * 5 ^ (stripFac 5 (stripFac 2 q.den).2).1 := by
    conv_lhs => rw [h2a, h5a]
  have h10 : (10 : Nat) ^ k = 2 ^ k * 5 ^ k := by
    rw [← Nat.mul_pow]
  have hdd : 2 ^ (stripFac 2 q.den).1 * 5 ^ (stripFac 5 (stripFac 2 q.den).2).1 ∣
      2 ^ k * 5 ^ k :=
    Nat.mul_dvd_mul (Nat.pow_dvd_pow 2 (le_trans (le_max_left _ _) hk))
      (Nat.pow_dvd_pow 5 (le_trans (le_max_right _ _) hk))
  rwa [← hden_eq, ← h10] at hdd

/-- The parsed value of the emitted decimal digits is exactly `q`. -/
theorem encRat_value (q : Rat) (hq : isFiniteDec q = true) :
    ((if q.num < 0 then (-1 : Rat) else 1) *
      (((q.num.natAbs * 10 ^ max (decScale q) 1 / q.den / 10 ^ max (decScale q) 1 : Nat) : Rat) +
       ((q.num.natAbs * 10 ^ max (decScale q) 1 / q.den % 10 ^ max (decScale q) 1 : Nat) : Rat) /
         (10 : Rat) ^ max (decScale q) 1)) = q := by
  have hden0 : q.den ≠ 0 := q.den_nz
  set k := max (decScale q) 1 with hkdef
  set N := q.num.natAbs * 10 ^ k / q.den with hNdef
  have hdvd : q.den ∣ 10 ^ k := den_dvd_pow10 q hq k (le_max_left _ _)
  have hNmul : N * q.den = q.num.natAbs * 10 ^ k :=
    Nat.div_mul_cancel (Dvd.dvd.mul_left hdvd _)
  have hWF : 10 ^ k * (N / 10 ^ k) + N % 10 ^ k = N := Nat.div_add_mod N (10 ^ k)
  have hp10 : ((10 : Rat) ^ k) ≠ 0 := by positivity
  have hdenQ : ((q.den : Nat) : Rat) ≠ 0 := Nat.cast_ne_zero.mpr hden0
  have h1 : (10 : Rat) ^ k * ((N / 10 ^ k : Nat) : Rat) +
      ((N % 10 ^ k : Nat) : Rat) = (N : Rat) := by
    exact_mod_cast hWF
  have h2 : (N : Rat) * ((q.den : Nat) : Rat) =
      ((q.num.natAbs : Nat) : Rat) * (10 : Rat) ^ k := by
    exact_mod_cast hNmul
  have hcore : ((N / 10 ^ k : Nat) : Rat) +
      ((N % 10 ^ k : Nat) : Rat) / (10 : Rat) ^ k =
      ((q.num.natAbs : Nat) : Rat) / ((q.den : Nat) : Rat) := by
    field_simp
    linear_combination ((q.den : Nat) : Rat) * h1 + h2
  by_cases hsgn : q.num < 0
  · rw [if_pos hsgn, hcore]
    have hnumInt : (q.num.natAbs : Int) = -q.num := by omega
    have hnum : ((q.num.natAbs : Nat) : Rat) = -(q.num : Rat) := by
      have h2 : (((q.num.natAbs : Int)) : Rat) = ((-q.num : Int) : Rat) := by
        rw [hnumInt]
      rw [Int.cast_natCast, Int.cast_neg] at h2
      exact h2
    rw [hnum]
    calc (-1 : Rat) * (-(q.num : Rat) / ((q.den : Nat) : Rat))
        = (q.num : Rat) / ((q.den : Nat) : Rat) := by ring
      _ = q := Rat.num_div_den q
  · rw [if_neg hsgn, hcore]
    have hnumInt : (q.num.natAbs : Int) = q.num := by omega
    have hnum : ((q.num.natAbs : Nat) : Rat) = (q.num : Rat) := by
      have h2 : (((q.num.natAbs : Int)) : Rat) = ((q.num : Int) : Rat) := by
        rw [hnumInt]
      rw [Int.cast_natCast] at h2
      exact h2
    rw [hnum, one_mul]
    exact Rat.num_div_den q

/-- An encoded finite-decimal rational followed by a boundary parses back
to itself. -/
theorem parseNumber_encRat (q : Rat) (hq : isFiniteDec q = true) (rest : List Char)
    (hrest : ∀ c, rest.head? = some c → isDigitChar c = false ∧ c ≠ '.') :
    parseNumber (encRat q ++ rest) = some (.srat q, rest) := by
  have hk1 : 1 ≤ max (decScale q) 1 := le_max_right _ _
  have hFlt : (q.num.natAbs * 10 ^ max (decScale q) 1 / q.den) % 10 ^ max (decScale q) 1
      < 10 ^ max (decScale q) 1 := Nat.mod_lt _ (by positivity)
  have hFlen := natToDigits_length_le (max (decScale q) 1) _ hk1 hFlt
  by_cases hsgn : q.num < 0
  · have hshape : encRat q ++ rest =
        (if true then ['-'] else []) ++
          (natToDigits (q.num.natAbs * 10 ^ max (decScale q) 1 / q.den / 10 ^ max (decScale q) 1) ++
            '.' :: (padLeftZeros (max (decScale q) 1)
              (natToDigits (q.num.natAbs * 10 ^ max (decScale q) 1 / q.den % 10 ^ max (decScale q) 1)) ++ rest)) := by
      simp [encRat, hsgn, List.append_assoc]
    rw [hshape, parseNumber_encRat_core true _ _ _ hk1 hFlen rest hrest]
    have hval := encRat_value q hq
    rw [if_pos hsgn] at hval
    simp only [Option.some.injEq, Prod.mk.injEq, Scalar.srat.injEq]
    exact ⟨hval, trivial⟩
  · have hshape : encRat q ++ rest =
        (if false then ['-'] else []) ++
          (natToDigits (q.num.natAbs * 10 ^ max (decScale q) 1 / q.den / 10 ^ max (decScale q) 1) ++
            '.' :: (padLeftZeros (max (decScale q) 1)
              (natToDigits (q.num.natAbs * 10 ^ max (decScale q) 1 / q.den % 10 ^ max (decScale q) 1)) ++ rest)) := by
      simp [encRat, hsgn, List.append_assoc]
    rw [hshape, parseNumber_encRat_core false _ _ _ hk1 hFlen rest hrest]
    have hval := encRat_value q hq
    rw [if_neg hsgn] at hval
    simp only [Option.some.injEq, Prod.mk.injEq, Scalar.srat.injEq]
    exact ⟨hval, trivial⟩

theorem isPrefixOf_false_of_head_ne (a b : Char) (as bs : List Char) (h : ¬ a = b) :
    (a :: as).isPrefixOf (b :: bs) = false := by
  simp [List.isPrefixOf, h]

theorem isPrefixOf_append_self (l t : List Char) : l.isPrefixOf (l ++ t) = true := by
  induction l with
  | nil => simp [List.isPrefixOf]
  | cons c cs ih => simp [List.isPrefixOf, ih]

/-- On an input whose first character opens a number, `parseScalar` defers
to `parseNumber`. -/
theorem parseScalar_eq_parseNumber (c : Char) (cs : List Char)
    (hc : c = '-' ∨ isDigitChar c = true) :
    parseScalar (c :: cs) = parseNumber (c :: cs) := by
  have hn : ¬ ('n' : Char) = c := by
    rcases hc with rfl | h
    · decide
    · exact fun he => ne_of_digit c 'n' h (by decide) he.symm
  have ht : ¬ ('t' : Char) = c := by
    rcases hc with rfl | h
    · decide
    · exact fun he => ne_of_digit c 't' h (by decide) he.symm
  have hf : ¬ ('f' : Char) = c := by
    rcases hc with rfl | h
    · decide
    · exact fun he => ne_of_digit c 'f' h (by decide) he.symm
  have hq : ¬ c = quoteChar := by
    rcases hc with rfl | h
    · decide
    · exact ne_of_digit c quoteChar h (by decide)
  show parseScalar (c :: cs) = _
  rw [parseScalar.eq_def]
  rw [show ("null".data) = 'n' :: "ull".data from rfl,
    isPrefixOf_false_of_head_ne 'n' c _ _ hn,
    show ("true".data) = 't' :: "rue".data from rfl,
    isPrefixOf_false_of_head_ne 't' c _ _ ht,
    show ("false".data) = 'f' :: "alse".data from rfl,
    isPrefixOf_false_of_head_ne 'f' c _ _ hf]
  simp [hq]

theorem encInt_head (i : Int) :
    ∃ c cs, encInt i = c :: cs ∧ (c = '-' ∨ isDigitChar c = true) := by
  by_cases h : i < 0
  · refine ⟨'-', natToDigits i.natAbs, by simp [encInt, h], Or.inl rfl⟩
  · obtain ⟨c, cs, hc⟩ := List.exists_cons_of_ne_nil (natToDigits_ne_nil i.natAbs)
    refine ⟨c, cs, by simp [encInt, h, hc], Or.inr ?_⟩
    refine natToDigits_all_digits i.natAbs c ?_
    rw [hc]
    exact List.mem_cons_self c cs

theorem encRat_head (q : Rat) :
    ∃ c cs, encRat q = c :: cs ∧ (c = '-' ∨ isDigitChar c = true) := by
  by_cases h : q.num < 0
  · refine ⟨'-', natToDigits (q.num.natAbs * 10 ^ max (decScale q) 1 / q.den /
        10 ^ max (decScale q) 1) ++ '.' :: padLeftZeros (max (decScale q) 1)
        (natToDigits (q.num.natAbs * 10 ^ max (decScale q) 1 / q.den %
          10 ^ max (decScale q) 1)), ?_, Or.inl rfl⟩
    simp [encRat, h]
  · obtain ⟨c, cs, hc⟩ := List.exists_cons_of_ne_nil
      (natToDigits_ne_nil (q.num.natAbs * 10 ^ max (decScale q) 1 / q.den /
        10 ^ max (decScale q) 1))
    refine ⟨c, cs ++ '.' :: padLeftZeros (max (decScale q) 1)
      (natToDigits (q.num.natAbs * 10 ^ max (decScale q) 1 / q.den %
        10 ^ max (decScale q) 1)), ?_, Or.inr ?_⟩
    · simp [encRat, h, hc]
    · refine natToDigits_all_digits (q.num.natAbs * 10 ^ max (decScale q) 1 / q.den /
        10 ^ max (decScale q) 1) c ?_
      rw [hc]
      exact List.mem_cons_self c cs

/-- A serialized scalar (with finite-decimal rationals) followed by a
separator/closer parses back to itself. -/
theorem parseScalar_encScalar (v : Scalar) (rest : List Char)
    (hfin : ∀ q, v = .srat q → isFiniteDec q = true)
    (hrest : ∀ c, rest.head? = some c → isDigitChar c = false ∧ c ≠ '.') :
    parseScalar (encScalar v ++ rest) = some (v, rest) := by
  cases v with
  | snull =>
      show parseScalar ("null".data ++ rest) = _
      rw [parseScalar.eq_def]
      rw [if_pos (isPrefixOf_append_self _ rest)]
      rw [show (4 : Nat) = ("null".data).length from rfl, List.drop_left]
  | sbool b =>
      cases b with
      | true =>
          show parseScalar ("true".data ++ rest) = _
          rw [parseScalar.eq_def]
          rw [show ("null".data) = 'n' :: "ull".data from rfl,
            show ("true".data ++ rest) = 't' :: ("rue".data ++ rest) from rfl,
            isPrefixOf_false_of_head_ne 'n' 't' _ _ (by decide)]
          rw [show ('t' :: ("rue".data ++ rest)) = "true".data ++ rest from rfl]
          rw [if_pos (isPrefixOf_append_self _ rest)]
          simp only [Bool.false_eq_true, if_false]
          rw [show (4 : Nat) = ("true".data).length from rfl, List.drop_left]
      | false =>
          show parseScalar ("false".data ++ rest) = _
          rw [parseScalar.eq_def]
          rw [show ("null".data) = 'n' :: "ull".data from rfl,
            show ("false".data ++ rest) = 'f' :: ("alse".data ++ rest) from rfl,
            isPrefixOf_false_of_head_ne 'n' 'f' _ _ (by decide),
            show ("true".data) = 't' :: "rue".data from rfl,
            isPrefixOf_false_of_head_ne 't' 'f' _ _ (by decide)]
          rw [show ('f' :: ("alse".data ++ rest)) = "false".data ++ rest from rfl]
          rw [if_pos (isPrefixOf_append_self _ rest)]
          simp only [Bool.false_eq_true, if_false]
          rw [show (5 : Nat) = ("false".data).length from rfl, List.drop_left]
  | sint n =>
      obtain ⟨c, cs, hc, hhead⟩ := encInt_head n
      have h1 : encScalar (Scalar.sint n) ++ rest = c :: (cs ++ rest) := by
        simp [encScalar, hc]
      rw [h1, parseScalar_eq_parseNumber c _ hhead, ← List.cons_append, ← hc]
      exact parseNumber_encInt n rest hrest
  | srat q =>
      obtain ⟨c, cs, hc, hhead⟩ := encRat_head q
      have h1 : encScalar (Scalar.srat q) ++ rest = c :: (cs ++ rest) := by
        simp [encScalar, hc]
      rw [h1, parseScalar_eq_parseNumber c _ hhead, ← List.cons_append, ← hc]
      exact parseNumber_encRat q (hfin q rfl) rest hrest
  | sstr s =>
      have h1 : encScalar (Scalar.sstr s) ++ rest =
          quoteChar :: (encStrBody s.data ++ quoteChar :: rest) := by
        simp [encScalar, encString]
      rw [h1, parseScalar]
      rw [show ("null".data) = 'n' :: "ull".data from rfl,
        isPrefixOf_false_of_head_ne 'n' quoteChar _ _ (by decide),
        show ("true".data) = 't' :: "rue".data from rfl,
        isPrefixOf_false_of_head_ne 't' quoteChar _ _ (by decide),
        show ("false".data) = 'f' :: "alse".data from rfl,
        isPrefixOf_false_of_head_ne 'f' quoteChar _ _ (by decide)]
      have hps : parseString (quoteChar :: (encStrBody s.data ++ quoteChar :: rest))
          = some (s, rest) := by
        rw [show quoteChar :: (encStrBody s.data ++ quoteChar :: rest)
          = encString s ++ rest from by simp [encString]]
        exact parseString_enc s rest
      simp [hps]

theorem parseObjItems_enc :
    ∀ l : List (String × Scalar), l ≠ [] →
      (∀ p ∈ l, ∀ q : Rat, p.2 = Scalar.srat q → isFiniteDec q = true) →
      ∀ fuel : Nat, l.length ≤ fuel → ∀ rest : List Char,
        parseObjItems fuel
          (joinComma (l.map (fun p => encString p.1 ++ ':' :: encScalar p.2)) ++
            rbraceChar :: rest) = some (l, rest) := by
  intro l
  induction l with
  | nil => intro h; cases h rfl
  | cons p t ih =>
      intro _ hfin fuel hfuel rest
      cases fuel with
      | zero => simp at hfuel
      | succ f =>
          have hfinp : ∀ q : Rat, p.2 = Scalar.srat q → isFiniteDec q = true :=
            hfin p (List.mem_cons_self p t)
          cases t with
          | nil =>
              have hre : joinComma ((([p] : List (String × Scalar))).map
                  (fun r => encString r.1 ++ ':' :: encScalar r.2)) ++ rbraceChar :: rest
                  = encString p.1 ++
                    (':' :: (encScalar p.2 ++ rbraceChar :: rest)) := by
                simp [joinComma]
              rw [hre]
              have hps := parseString_enc p.1 (':' :: (encScalar p.2 ++ rbraceChar :: rest))
              have hsc : parseScalar (encScalar p.2 ++ rbraceChar :: rest)
                  = some (p.2, rbraceChar :: rest) :=
                parseScalar_encScalar p.2 _ hfinp
                  (by intro c hc; cases hc; exact ⟨by decide, by decide⟩)
              have hrb : ¬ (rbraceChar = ',') := by decide
              simp only [parseObjItems]
              simp [hps, hsc, hrb]
          | cons p2 t2 =>
              have hre : joinComma (((p :: p2 :: t2)).map
                  (fun r => encString r.1 ++ ':' :: encScalar r.2)) ++ rbraceChar :: rest
                  = encString p.1 ++ (':' :: (encScalar p.2 ++
                    ',' :: (joinComma ((p2 :: t2).map
                      (fun r => encString r.1 ++ ':' :: encScalar r.2)) ++
                      rbraceChar :: rest))) := by
                simp [joinComma]
              rw [hre]
              have hps := parseString_enc p.1 (':' :: (encScalar p.2 ++
                ',' :: (joinComma ((p2 :: t2).map
                  (fun r => encString r.1 ++ ':' :: encScalar r.2)) ++
                  rbraceChar :: rest)))
              have hsc : parseScalar (encScalar p.2 ++
                  ',' :: (joinComma ((p2 :: t2).map
                    (fun r => encString r.1 ++ ':' :: encScalar r.2)) ++
                    rbraceChar :: rest))
                  = some (p.2, ',' :: (joinComma ((p2 :: t2).map
                    (fun r => encString r.1 ++ ':' :: encScalar r.2)) ++
                    rbraceChar :: rest)) :=
                parseScalar_encScalar p.2 _ hfinp
                  (by intro c hc; cases hc; exact ⟨by decide, by decide⟩)
              have hrec := ih (by simp)
                (by intro r hr; exact hfin r (List.mem_cons_of_mem p hr))
                f (by simpa using Nat.succ_le_succ_iff.mp hfuel) rest
              simp only [List.map_cons] at hps hsc hrec
              simp only [parseObjItems]
              simp [hps, hsc, hrec]

theorem parseStrListItems_enc :
    ∀ l : List String, l ≠ [] →
      ∀ fuel : Nat, l.length ≤ fuel → ∀ rest : List Char,
        parseStrListItems fuel (joinComma (l.map encString) ++ ']' :: rest)
          = some (l, rest) := by
  intro l
  induction l with
  | nil => intro h; cases h rfl
  | cons v t ih =>
      intro _ fuel hfuel rest
      cases fuel with
      | zero => simp at hfuel
      | succ f =>
          cases t with
          | nil =>
              have hre : joinComma ((([v] : List String)).map encString) ++ ']' :: rest
                  = encString v ++ (']' :: rest) := by
                simp [joinComma]
              rw [hre]
              have hps := parseString_enc v (']' :: rest)
              simp only [parseStrListItems]
              simp [hps]
          | cons v2 t2 =>
              have hre : joinComma (((v :: v2 :: t2)).map encString) ++ ']' :: rest
                  = encString v ++
                    (',' :: (joinComma ((v2 :: t2).map encString) ++ ']' :: rest)) := by
                simp [joinComma]
              rw [hre]
              have hps := parseString_enc v
                (',' :: (joinComma ((v2 :: t2).map encString) ++ ']' :: rest))
              have hrec := ih (by simp) f (by simpa using Nat.succ_le_succ_iff.mp hfuel) rest
              simp only [List.map_cons] at hps hrec
              simp only [parseStrListItems]
              simp [hps, hrec]

/-- Every encoded item is nonempty, so the fuel `|input| + 1` suffices. -/
theorem joinComma_length_ge (items : List (List Char))
    (h : ∀ it ∈ items, it ≠ []) : items.length ≤ (joinComma items).length + 1 := by
  induction items with
  | nil => simp
  | cons x t ih =>
      cases t with
      | nil => simp [joinComma]
      | cons y t2 =>
          have hx : x ≠ [] := h x (List.mem_cons_self x _)
          have hxlen : 1 ≤ x.length := by
            cases x with
            | nil => cases hx rfl
            | cons a as => simp
          have ht := ih (fun it hit => h it (List.mem_cons_of_mem x hit))
          have hj : joinComma (x :: y :: t2) = x ++ ',' :: joinComma (y :: t2) := rfl
          rw [hj]
          simp only [List.length_append, List.length_cons] at *
          omega

/-- `json.loads (json.dumps obj)` round-trips a flat scalar object whose
numeric leaves are finite decimals. -/
theorem loadsScalarObj_enc (l : List (String × Scalar))
    (hfin : ∀ p ∈ l, ∀ q : Rat, p.2 = Scalar.srat q → isFiniteDec q = true) :
    loadsScalarObj (jsonOfObj l) = some l := by
  cases l with
  | nil => rfl
  | cons p t =>
      have hitems_ne : ∀ it ∈ (p :: t).map
          (fun r => encString r.1 ++ ':' :: encScalar r.2), it ≠ [] := by
        intro it hit
        simp only [List.mem_map] at hit
        obtain ⟨r, _, rfl⟩ := hit
        simp [encString]
      obtain ⟨X, hX⟩ : ∃ X, joinComma ((p :: t).map
          (fun r => encString r.1 ++ ':' :: encScalar r.2)) = quoteChar :: X := by
        cases t with
        | nil =>
            exact ⟨(encStrBody p.1.data ++ [quoteChar]) ++ ':' :: encScalar p.2, rfl⟩
        | cons p2 t2 =>
            exact ⟨((encStrBody p.1.data ++ [quoteChar]) ++ ':' :: encScalar p.2) ++
              ',' :: joinComma ((p2 :: t2).map
                (fun r => encString r.1 ++ ':' :: encScalar r.2)), rfl⟩
      have hXfull : joinComma ((p :: t).map
          (fun r => encString r.1 ++ ':' :: encScalar r.2)) ++ [rbraceChar]
          = quoteChar :: (X ++ [rbraceChar]) := by
        rw [hX]
        rfl
      have hjlen : (joinComma ((p :: t).map
          (fun r => encString r.1 ++ ':' :: encScalar r.2))).length = X.length + 1 := by
        rw [hX]
        simp
      have hfuel : (p :: t).length ≤ X.length + 1 + 1 + 1 := by
        have hlen := joinComma_length_ge _ hitems_ne
        simp only [List.length_map] at hlen
        omega
      have hitems := parseObjItems_enc (p :: t) (by simp) hfin
        (X.length + 1 + 1 + 1) hfuel []
      rw [show joinComma ((p :: t).map
          (fun r => encString r.1 ++ ':' :: encScalar r.2)) ++ rbraceChar :: ([] : List Char)
          = quoteChar :: (X ++ [rbraceChar]) from hXfull] at hitems
      show loadsScalarObj ⟨lbraceChar :: (joinComma ((p :: t).map
        (fun r => encString r.1 ++ ':' :: encScalar r.2)) ++ [rbraceChar])⟩ = _
      rw [hXfull]
      simp only [loadsScalarObj]
      have hqr : ¬ (quoteChar = rbraceChar) := by decide
      simp [hqr]
      rw [hitems]

/-- `json.loads (json.dumps strs)` round-trips a list of strings. -/
theorem loadsStrList_enc (l : List String) :
    loadsStrList (jsonOfStrList l) = some l := by
  cases l with
  | nil => rfl
  | cons v t =>
      have hitems_ne : ∀ it ∈ (v :: t).map encString, it ≠ [] := by
        intro it hit
        simp only [List.mem_map] at hit
        obtain ⟨r, _, rfl⟩ := hit
        simp [encString]
      obtain ⟨X, hX⟩ : ∃ X, joinComma ((v :: t).map encString) = quoteChar :: X := by
        cases t with
        | nil => exact ⟨encStrBody v.data ++ [quoteChar], rfl⟩
        | cons v2 t2 =>
            exact ⟨(encStrBody v.data ++ [quoteChar]) ++
              ',' :: joinComma ((v2 :: t2).map encString), rfl⟩
      have hXfull : joinComma ((v :: t).map encString) ++ [']']
          = quoteChar :: (X ++ [']']) := by
        rw [hX]
        rfl
      have hjlen : (joinComma ((v :: t).map encString)).length = X.length + 1 := by
        rw [hX]
        simp
      have hfuel : (v :: t).length ≤ X.length + 1 + 1 + 1 := by
        have hlen := joinComma_length_ge _ hitems_ne
        simp only [List.length_map] at hlen
        omega
      have hitems := parseStrListItems_enc (v :: t) (by simp)
        (X.length + 1 + 1 + 1) hfuel []
      rw [show joinComma ((v :: t).map encString) ++ ']' :: ([] : List Char)
          = quoteChar :: (X ++ [']']) from hXfull] at hitems
      show loadsStrList ⟨'[' :: (joinComma ((v :: t).map encString) ++ [']'])⟩ = _
      rw [hXfull]
      simp only [loadsStrList]
      have hqr : ¬ (quoteChar = ']') := by decide
      simp [hqr]
      rw [hitems]

theorem jsonOfObj_ne_empty (l : List (String × Scalar)) : jsonOfObj l ≠ "" := by
  intro h
  have h2 := congrArg String.data h
  simp only [jsonOfObj] at h2
  cases l <;> simp [encScalarObj] at h2

theorem jsonOfStrList_ne_empty (l : List String) : jsonOfStrList l ≠ "" := by
  intro h
  have h2 := congrArg String.data h
  simp only [jsonOfStrList] at h2
  cases l <;> simp [encStrList] at h2

theorem decodeObjField_enc (l : List (String × Scalar)) (hfin : scalarObjOk l) :
    decodeObjField (some (jsonOfObj l)) = some l := by
  show (match truthyOpt (some (jsonOfObj l)) with
    | none => some []
    | some s => loadsScalarObj s) = some l
  rw [show truthyOpt (some (jsonOfObj l)) = some (jsonOfObj l) from by
    simp [truthyOpt, jsonOfObj_ne_empty l]]
  exact loadsScalarObj_enc l hfin

theorem decodeListField_enc (l : List String) :
    decodeListField (some (jsonOfStrList l)) = some l := by
  show (match truthyOpt (some (jsonOfStrList l)) with
    | none => some []
    | some s => loadsStrList s) = some l
  rw [show truthyOpt (some (jsonOfStrList l)) = some (jsonOfStrList l) from by
    simp [truthyOpt, jsonOfStrList_ne_empty l]]
  exact loadsStrList_enc l

theorem find_append_new (st : List HRow) (row : HRow) (i : Int) (hi : row.analysis_id = i)
    (h : ∀ r ∈ st, (r.analysis_id == i) = false) :
    (st ++ [row]).find? (fun r => r.analysis_id == i) = some row := by
  induction st with
  | nil => simp [List.find?, hi]
  | cons a t ih =>
      have ha := h a (List.mem_cons_self a t)
      simp only [List.cons_append, List.find?, ha]
      exact ih (fun r hr => h r (List.mem_cons_of_mem a hr))

/-- **C6.** For every record accepted by `save_analysis_record` (with a
working backend and float leaves, i.e. finite decimals), getting the
returned `analysis_id` yields a record whose `params`, `result_stats`,
`figure_paths` and `tags` deep-equal the saved ones, with every field
absent at save time deserialized to the empty structure — a success, never
an Error. -/
theorem history_roundtrip :
    ∀ (env : HistEnv) (st : List HRow) (r : RecordIn) (d : SaveData),
      env.connectRes = Except.ok () → env.createErr = none → env.execErr = none →
      scalarObjOk (r.params.getD []) → scalarObjOk (r.result_stats.getD []) →
      (save_analysis_record env st r).1 = succEnv d →
      ∃ rec : RecordOut,
        (get_analysis_record env (save_analysis_record env st r).2.1 d.analysis_id).1
          = succEnv { record := rec } ∧
        rec.params = r.params.getD [] ∧
        rec.result_stats = r.result_stats.getD [] ∧
        rec.figure_paths = r.figure_paths.getD [] ∧
        rec.tags = r.tags.getD [] := by
  intro env st r d hc hcr hex hokp hoks hsave
  simp only [save_analysis_record, hc, hcr, hex] at hsave ⊢
  obtain rfl := succEnv_inj hsave
  simp only [get_analysis_record, hc, hcr, hex]
  have hfind := find_append_new st
    { analysis_id := nextAnalysisId st, app_name := r.app_name,
      user_id := r.user_id, workflow_name := r.workflow_name,
      created_at := r.created_at, summary_text := r.summary_text,
      params_json := some (jsonOfObj (r.params.getD [])),
      result_stats_json := some (jsonOfObj (r.result_stats.getD [])),
      figure_paths_json := some (jsonOfStrList (r.figure_paths.getD [])),
      tags_json := some (jsonOfStrList (r.tags.getD [])) }
    (nextAnalysisId st) rfl
    (by
      intro rr hrr
      have := mem_lt_nextAnalysisId st rr hrr
      simp only [beq_eq_false_iff_ne, ne_eq]
      omega)
  rw [hfind]
  have hdp := decodeObjField_enc (r.params.getD []) hokp
  have hds := decodeObjField_enc (r.result_stats.getD []) hoks
  have hdf := decodeListField_enc (r.figure_paths.getD [])
  have hdt := decodeListField_enc (r.tags.getD [])
  simp only [rowToRecord, hdp, hds, hdf, hdt]
  exact ⟨_, rfl, rfl, rfl, rfl, rfl⟩

/-- Witness for C6: saving a concrete record whose `tags` key is absent
into an empty store, then getting id 1, returns the original structured
fields with `tags` deserialized to the empty list. -/
theorem history_roundtrip_witness :
    ∃ rec : RecordOut,
      (get_analysis_record histEnvOkW
        (save_analysis_record histEnvOkW [] recordW).2.1 1).1
        = succEnv { record := rec } ∧
      rec.params = [("limit", Scalar.sint 100)] ∧
      rec.tags = [] := by
  have hfin1 : scalarObjOk (recordW.params.getD []) := by
    intro p hp q hq
    simp [recordW] at hp
    rw [hp] at hq
    simp at hq
  have hfin2 : scalarObjOk (recordW.result_stats.getD []) := by
    intro p hp q hq
    simp [recordW] at hp
    rcases hp with hp | hp <;> rw [hp] at hq <;> simp at hq
    subst hq
    simp [isFiniteDec]
    rw [stripFac, stripFac]
    norm_num
  obtain ⟨rec, hget, hp, _, _, ht⟩ := history_roundtrip histEnvOkW [] recordW
    ⟨1⟩ rfl rfl rfl hfin1 hfin2 rfl
  exact ⟨rec, hget, by rw [hp]; rfl, by rw [ht]; rfl⟩

/-- **C3.** In `assembly_quality_overview`, when the initial query
succeeds, a failing summarize step is non-fatal: the workflow envelope is
still a success, `summaries` is absent with the failure recorded in the
sibling `summaries_error`, the correlation and both plot steps still run
normally (their fields carry exactly the success data or the sibling
error of the corresponding call), and with `row_count > 0` a non-null
`analysis_record` is still built; a failing initial query makes the whole
workflow envelope an Error. -/
theorem assembly_quality_summarize_nonfatal :
    (∀ (env : WorkflowEnv) (limit : Nat) (qd : QueryData) (em : String),
      (run_duckdb_query env.sql (asmStatsSql limit) limit).1 = succEnv qd →
      qd.rows.isEmpty = false →
      summarize_numeric_columns qd.rows qd.columns (some ["N50", "TOTAL_LENGTH"])
        = errEnv em →
      ∃ d : AsmData,
        assembly_quality_overview env limit = succEnv d ∧
        d.summaries = none ∧
        d.summaries_error = some em ∧
        d.row_count = qd.row_count ∧
        (d.correlation, d.correlation_error) =
          (if (compute_correlation qd.rows qd.columns "N50" "TOTAL_LENGTH"
                "pearson").status == "success" then
            ((compute_correlation qd.rows qd.columns "N50" "TOTAL_LENGTH"
                "pearson").data, none)
          else
            (none, (compute_correlation qd.rows qd.columns "N50" "TOTAL_LENGTH"
                "pearson").error_message)) ∧
        (d.plots.n50_hist, d.plots.n50_hist_error) =
          (if (make_plot env.histPlot qd.rows qd.columns "hist" "N50" none
                (some "N50 distribution") true false 50 none).status == "success" then
            ((make_plot env.histPlot qd.rows qd.columns "hist" "N50" none
                (some "N50 distribution") true false 50 none).data, none)
          else
            (none, (make_plot env.histPlot qd.rows qd.columns "hist" "N50" none
                (some "N50 distribution") true false 50 none).error_message)) ∧
        (d.plots.n50_vs_total_scatter, d.plots.n50_vs_total_scatter_error) =
          (if (make_plot env.scatterPlot qd.rows qd.columns "scatter" "N50"
                (some "TOTAL_LENGTH") (some "N50 vs total assembly length")
                true true 30 none).status == "success" then
            ((make_plot env.scatterPlot qd.rows qd.columns "scatter" "N50"
                (some "TOTAL_LENGTH") (some "N50 vs total assembly length")
                true true 30 none).data, none)
          else
            (none, (make_plot env.scatterPlot qd.rows qd.columns "scatter" "N50"
                (some "TOTAL_LENGTH") (some "N50 vs total assembly length")
                true true 30 none).error_message)) ∧
        (0 < qd.row_count → d.analysis_record ≠ none)) ∧
    (∀ (env : WorkflowEnv) (limit : Nat) (m : String),
      (run_duckdb_query env.sql (asmStatsSql limit) limit).1 = errEnv m →
      assembly_quality_overview env limit
        = errEnv ("Failed to query asm_stats: " ++ m)) := by
  constructor
  · intro env limit qd em hq hr hs
    simp only [assembly_quality_overview, hq, succEnv, errEnv, Option.getD_some, hr, hs,
      Bool.not_false, if_true]
    have hb1 : ((!"success" == "success") = true) = False := by simp
    have hb2 : ((("error" : String) == "success") = true) = False := by simp
    simp only [hb1, hb2, if_false]
    refine ⟨_, rfl, rfl, rfl, rfl, ?_, ?_, ?_, ?_⟩
    · split <;> rfl
    · split <;> rfl
    · split <;> rfl
    · intro hpos
      rw [if_pos hpos]
      simp
  · intro env limit m hq
    simp only [assembly_quality_overview, hq, errEnv]
    simp

/-- Witness for C3: a backend whose query returns one all-string row
makes summarize fail (no numeric data), yet the workflow call is a
success recording the failure in `summaries_error` and building an
analysis record. -/
theorem assembly_quality_summarize_nonfatal_witness :
    ∃ d : AsmData,
      assembly_quality_overview workflowEnvW 5 = succEnv d ∧
      d.summaries = none ∧
      d.summaries_error
        = some "No numeric columns contained valid data for summarization." ∧
      d.analysis_record ≠ none := by
  obtain ⟨d, h1, h2, h3, h4, _, _, _, h8⟩ :=
    assembly_quality_summarize_nonfatal.1 workflowEnvW 5 qdW
      "No numeric columns contained valid data for summarization." rfl rfl rfl
  exact ⟨d, h1, h2, h3, h8 (by decide)⟩

theorem str_append_ne_empty (s t : String) (h : s ≠ "") : s ++ t ≠ "" := by
  intro he
  apply h
  have hd := congrArg String.data he
  rw [String.data_append] at hd
  exact String.ext (List.append_eq_nil.mp hd).1

/-- Counterexample to C1: a backend exception whose rendered text
(`str(e)`) is the empty string makes `run_duckdb_query` return
`status=error` with `error_message = ""`, violating the non-empty-message
half of the envelope invariant. -/
theorem envelope_invariant_counterexample :
    ¬ envOk (run_duckdb_query sqlEnvEmptyMsgW "SELECT 1" 1000).1 := by
  have hres : (run_duckdb_query sqlEnvEmptyMsgW "SELECT 1" 1000).1
      = errEnv "" := by rfl
  rw [hres]
  simp [envOk, isSuccEnv, isErrEnv, errEnv]

/-- **C1** (amended). Every public core operation returns a well-formed
envelope — exactly one of `status=success` with data present and no
error message, and `status=error` with no data and a non-empty message —
and no uncaught fault crosses the boundary.  For the four operations
that forward a raised exception's rendered text verbatim
(`run_duckdb_query`, `list_tables`, `describe_table`, `make_plot`) this
holds provided the backend's exception messages are non-empty (Python
allows `str(e) = ""`); the stats, workflow and history operations
satisfy the invariant unconditionally, their messages being literal or
literal-prefixed. -/
theorem envelope_invariant :
    (∀ env : SqlEnv, SqlEnv.cleanMessages env → ∀ sql max_rows,
      envOk (run_duckdb_query env sql max_rows).1) ∧
    (∀ env : SqlEnv, SqlEnv.cleanMessages env → envOk (list_tables env).1) ∧
    (∀ env : SqlEnv, SqlEnv.cleanMessages env → ∀ tn mc,
      envOk (describe_table env tn mc).1) ∧
    (∀ rows columns sel, envOk (summarize_numeric_columns rows columns sel)) ∧
    (∀ rows columns x y m, envOk (compute_correlation rows columns x y m)) ∧
    (∀ env : PlotEnv, PlotEnv.cleanMessages env →
      ∀ rows columns kind x y title lx ly bins hue,
      envOk (make_plot env rows columns kind x y title lx ly bins hue)) ∧
    (∀ (env : WorkflowEnv) (limit : Nat),
      envOk (assembly_quality_overview env limit)) ∧
    (∀ (env : LifestyleEnv) (a b : Nat),
      envOk (genome_lifestyle_overview env a b)) ∧
    (∀ (env : HistEnv) (st : List HRow) (r : RecordIn),
      envOk (save_analysis_record env st r).1) ∧
    (∀ (env : HistEnv) (st : List HRow) (u w : Option String) (lim : Nat),
      envOk (list_analysis_history env st u w lim).1) ∧
    (∀ (env : HistEnv) (st : List HRow) (i : Int),
      envOk (get_analysis_record env st i).1) := by
  refine ⟨?_, ?_, ?_, ?_, ?_, ?_, ?_, ?_, ?_, ?_, ?_⟩
  · intro env hc sql max_rows
    simp only [run_duckdb_query]
    repeat' split
    all_goals first
      | exact envOk_succEnv _
      | (apply envOk_errEnv
         repeat' apply str_append_ne_empty
         decide)
      | (rename_i e heq
         exact envOk_errEnv (hc.1 e heq))
      | (rename_i e heq
         exact envOk_errEnv (hc.2 _ _ _ e heq))
  · intro env hc
    simp only [list_tables]
    repeat' split
    all_goals first
      | exact envOk_succEnv _
      | (apply envOk_errEnv
         repeat' apply str_append_ne_empty
         decide)
      | (rename_i e heq
         exact envOk_errEnv (hc.1 e heq))
      | (rename_i e heq
         exact envOk_errEnv (hc.2 _ _ _ e heq))
  · intro env hc tn mc
    simp only [describe_table]
    repeat' split
    all_goals first
      | exact envOk_succEnv _
      | (apply envOk_errEnv
         repeat' apply str_append_ne_empty
         decide)
      | (rename_i e heq
         exact envOk_errEnv (hc.1 e heq))
      | (rename_i e heq
         exact envOk_errEnv (hc.2 _ _ _ e heq))
  · intro rows columns sel
    simp only [summarize_numeric_columns]
    repeat' split
    all_goals first
      | exact envOk_succEnv _
      | (apply envOk_errEnv
         repeat' apply str_append_ne_empty
         decide)
      | (rename_i m heq
         apply envOk_errEnv
         repeat' split at heq
         all_goals first
           | exact Except.noConfusion heq
           | (injection heq with h
              subst h
              repeat' apply str_append_ne_empty
              decide))
  · intro rows columns x y m
    simp only [compute_correlation]
    repeat' split
    all_goals first
      | exact envOk_succEnv _
      | (apply envOk_errEnv
         repeat' apply str_append_ne_empty
         decide)
  · intro env hc rows columns kind x y title lx ly bins hue
    simp only [make_plot, colMissingMsg]
    repeat' split
    all_goals first
      | exact envOk_succEnv _
      | (apply envOk_errEnv
         repeat' apply str_append_ne_empty
         decide)
      | (rename_i m heq
         exact envOk_errEnv (hc m heq))
      | (rename_i m heq
         apply envOk_errEnv
         repeat' split at heq
         all_goals first
           | exact Except.noConfusion heq
           | (injection heq with h
              subst h
              repeat' apply str_append_ne_empty
              decide))
  · intro env limit
    simp only [assembly_quality_overview]
    split
    · apply envOk_errEnv
      apply str_append_ne_empty
      decide
    · exact envOk_succEnv _
  · intro env a b
    simp only [genome_lifestyle_overview]
    split
    · apply envOk_errEnv
      apply str_append_ne_empty
      decide
    · split
      · exact envOk_errEnv (by decide)
      · split
        · apply envOk_errEnv
          repeat' apply str_append_ne_empty
          decide
        · split
          · exact envOk_errEnv (by decide)
          · exact envOk_succEnv _
  · intro env st r
    simp only [save_analysis_record]
    split
    · apply envOk_errEnv
      apply str_append_ne_empty
      decide
    · split
      · apply envOk_errEnv
        apply str_append_ne_empty
        decide
      · split
        · apply envOk_errEnv
          apply str_append_ne_empty
          decide
        · exact envOk_succEnv _
  · intro env st u w lim
    simp only [list_analysis_history]
    split
    · apply envOk_errEnv
      apply str_append_ne_empty
      decide
    · split
      · apply envOk_errEnv
        apply str_append_ne_empty
        decide
      · split
        · apply envOk_errEnv
          apply str_append_ne_empty
          decide
        · split
          · exact envOk_succEnv _
          · exact envOk_errEnv (by decide)
  · intro env st i
    simp only [get_analysis_record]
    split
    · apply envOk_errEnv
      apply str_append_ne_empty
      decide
    · split
      · apply envOk_errEnv
        apply str_append_ne_empty
        decide
      · split
        · apply envOk_errEnv
          apply str_append_ne_empty
          decide
        · split
          · apply envOk_errEnv
            apply str_append_ne_empty
            decide
          · split
            · exact envOk_succEnv _
            · exact envOk_errEnv (by decide)

/-- Witness for C1: with a benign SQL backend and a clean plotting
backend the envelope invariant holds at concrete calls. -/
theorem envelope_invariant_witness :
    envOk (run_duckdb_query sqlEnvOkW "SELECT 1" 10).1 ∧
    envOk (make_plot plotEnvW rowsW ["a"] "hist" "a" none none false false 10 none) := by
  constructor
  · refine envelope_invariant.1 sqlEnvOkW ⟨?_, ?_⟩ "SELECT 1" 10
    · intro e h
      exact Except.noConfusion h
    · intro sql ps n e h
      exact Except.noConfusion h
  · refine envelope_invariant.2.2.2.2.2.1 plotEnvW ?_ rowsW ["a"] "hist" "a"
      none none false false 10 none
    intro m h
    exact Option.noConfusion h

end FungiBot
